import Mathlib

/-!
Verification of rx_multi_to_file_switch: acquisition loop and frequency sweep.

A shallow embedding of `src/rx_multi_to_file_switch.cpp`:

* `recv_to_file` (lines 22-98): the per-segment receive loop, its prologue
  (open sinks, arm the stream) and its epilogue (stop command, close sinks);
* the `do { ... } while (not stop_signal_called)` sweep loop of
  `UHD_SAFE_MAIN` (lines 248-282).

The radio device and the operating system are an explicit environment: the
result of the k-th `recv` call of a segment, and whether the SIGINT handler
has run before a given read of `stop_signal_called`. Side effects (stream
commands, file writes, shell commands, retunes) are recorded in order in a
trace. Wall-clock times (`seconds_in_future`, command times, sleeps) and
console output other than the timeout line and the overflow warning are not
part of the model. Of the destructors that run implicitly, those of the output
files are modelled where they act on a sink: when an exception unwinds the
stack while the files are open.

The frequencies `rx_freq`, `end_freq` and `freq_step` are `double` values. A
finite `double` is a rational number, `==` on finite doubles is equality of
these numbers, and the machine's addition (the exact sum rounded to a
`double`) is a function of the environment; `double_add` is that function for
IEEE 754 binary64 with rounding to nearest, ties to even.
-/

namespace RxMultiToFileSwitch

/-! ## Data model -/

/-- The `md.error_code` values the loop distinguishes: `ERROR_CODE_NONE`,
`ERROR_CODE_TIMEOUT`, `ERROR_CODE_OVERFLOW`, and any other code. -/
inductive ErrorCode where
  | NONE
  | TIMEOUT
  | OVERFLOW
  | OTHER (code : Nat)
  deriving DecidableEq, Repr

/-- What one `rx_stream->recv` call hands back: the returned sample count and
the error code left in the metadata. -/
structure RecvResult where
  num_rx_samps : Nat
  error_code : ErrorCode
  deriving DecidableEq, Repr

/-- The `uhd::stream_cmd_t` stream modes used by `recv_to_file`. -/
inductive StreamMode where
  | START_CONTINUOUS
  | NUM_SAMPS_AND_DONE
  | STOP_CONTINUOUS
  deriving DecidableEq, Repr

/-- Observable actions of `recv_to_file`, in program order. -/
inductive SegEvent where
  /-- Line 44: `outfiles[i].open(...)`. -/
  | open_file (chan : Nat)
  /-- Lines 59 and 94: `rx_stream->issue_stream_cmd(stream_cmd)`. -/
  | issue_stream_cmd (mode : StreamMode) (num_samps : Int)
  /-- Line 62: `rx_stream->recv(buff, samps_per_buff, md, ...)`; `call` is the
  zero-based index of the call within the segment. -/
  | recv (call : Nat) (nsamps_per_buff : Nat)
  /-- The "Timeout while streaming" line, line 67. -/
  | timeout_msg
  /-- The overflow warning on `std::cerr`, lines 73-79. -/
  | overflow_msg
  /-- Line 90: `outfiles[i].write(buff[i], nbytes)`. -/
  | write (chan : Nat) (nbytes : Nat)
  /-- Line 96: `outfiles[i].close()`. -/
  | close (chan : Nat)
  /-- Line 39: the destructor of `outfiles[i]`, run while the exception thrown
  on line 84 unwinds the stack; the file is still open and the destructor
  closes it. -/
  | destructor_close (chan : Nat)
  deriving DecidableEq, Repr

/-- The environment of one segment. -/
structure SegEnv where
  /-- Result of the k-th `recv` call of the segment. -/
  recv : Nat → RecvResult
  /-- Whether `sig_int_handler` has run since the previous read of
  `stop_signal_called`, at the k-th evaluation of the loop condition. -/
  sigint : Nat → Bool

/-- The local variables of `recv_to_file` that the loop reads or writes,
together with the global `stop_signal_called`, the number of `recv` calls
issued so far, and the trace. `outfiles` holds the byte length of each
channel's sink. -/
structure LoopState where
  num_total_samps : Int
  overflow_message : Bool
  outfiles : List Nat
  stop_signal_called : Bool
  calls : Nat
  trace : List SegEvent
  deriving DecidableEq, Repr

/-- How control leaves the `while` loop of `recv_to_file`: the condition is
false, the `break` on timeout, the `throw` on an unexpected error code, or
the loop is still running when the fuel is used up. -/
inductive LoopExit where
  | cond_false
  | timeout_break
  | thrown (code : Nat)
  | running
  deriving DecidableEq, Repr

/-- The outcome of one loop iteration. -/
inductive Control where
  | continue_ (ls : LoopState)
  | break_ (ls : LoopState)
  | throw_ (code : Nat) (ls : LoopState)
  deriving DecidableEq, Repr

/-- The outcome of `recv_to_file`. -/
structure SegResult where
  exit : LoopExit
  state : LoopState
  deriving DecidableEq, Repr

/-! ## Machine integers -/

/-- Conversion of an integer value to a 32-bit two's-complement `int`
(the value is reduced modulo 2^32 into the range -2^31 .. 2^31 - 1). -/
def toInt32 (z : Int) : Int := (z + 2 ^ 31) % 2 ^ 32 - 2 ^ 31

/-! ## recv_to_file -/

/-- The stream mode chosen on lines 50-53. -/
def start_mode (num_requested_samples : Int) : StreamMode :=
  if num_requested_samples = 0 then StreamMode.START_CONTINUOUS
  else StreamMode.NUM_SAMPS_AND_DONE

/-- Lines 30-59: the sinks are opened (empty) one per channel, the overflow
flag is set, and the stream start command is issued. `stop0` is the value
of `stop_signal_called` on entry. -/
def recv_prologue (num_channels : Nat) (num_requested_samples : Int) (stop0 : Bool) :
    LoopState :=
  { num_total_samps := 0
    overflow_message := true
    outfiles := List.replicate num_channels 0
    stop_signal_called := stop0
    calls := 0
    trace := (List.range num_channels).map SegEvent.open_file ++
      [SegEvent.issue_stream_cmd (start_mode num_requested_samples) num_requested_samples] }

/-- A read of `stop_signal_called`: the handler may have set it since the
last read; nothing in `recv_to_file` clears it. -/
def poll_stop (env : SegEnv) (ls : LoopState) : LoopState :=
  { ls with stop_signal_called := ls.stop_signal_called || env.sigint ls.calls }

/-- The loop condition of line 61, on the state after the flag is read. -/
def loop_cond (num_requested_samples : Int) (ls : LoopState) : Bool :=
  !ls.stop_signal_called &&
    (decide (num_requested_samples > ls.num_total_samps) || decide (num_requested_samples = 0))

/-- Lines 89-91: the write loop over the channels. -/
def write_all (num_channels nbytes : Nat) (ls : LoopState) : LoopState :=
  (List.range num_channels).foldl
    (fun s i =>
      { s with
        outfiles := s.outfiles.set i (s.outfiles.getD i 0 + nbytes)
        trace := s.trace ++ [SegEvent.write i nbytes] })
    ls

/-- Lines 62-91: one iteration of the loop body. The sum on line 88 is an
`int` plus a `size_t` stored back into an `int`, so it is reduced to 32 bits.
The byte count on line 90 is the product of a count that fits the allocated
buffer and the element size. -/
def loop_body (env : SegEnv) (num_channels sizeof_samp_type samps_per_buff : Nat)
    (ls : LoopState) : Control :=
  let r := env.recv ls.calls
  let ls1 : LoopState :=
    { ls with calls := ls.calls + 1
              trace := ls.trace ++ [SegEvent.recv ls.calls samps_per_buff] }
  match r.error_code with
  | ErrorCode.TIMEOUT =>
      Control.break_ { ls1 with trace := ls1.trace ++ [SegEvent.timeout_msg] }
  | ErrorCode.OVERFLOW =>
      if ls1.overflow_message then
        Control.continue_
          { ls1 with overflow_message := false
                     trace := ls1.trace ++ [SegEvent.overflow_msg] }
      else Control.continue_ ls1
  | ErrorCode.OTHER code => Control.throw_ code ls1
  | ErrorCode.NONE =>
      Control.continue_
        (write_all num_channels (r.num_rx_samps * sizeof_samp_type)
          { ls1 with num_total_samps := toInt32 (ls1.num_total_samps + r.num_rx_samps) })

/-- Lines 61-92: the `while` loop. One unit of fuel is one iteration. -/
def recv_loop (env : SegEnv) (num_channels sizeof_samp_type samps_per_buff : Nat)
    (num_requested_samples : Int) : Nat → LoopState → LoopExit × LoopState
  | 0, ls =>
      if loop_cond num_requested_samples (poll_stop env ls) then
        (LoopExit.running, poll_stop env ls)
      else (LoopExit.cond_false, poll_stop env ls)
  | fuel + 1, ls =>
      if loop_cond num_requested_samples (poll_stop env ls) then
        match loop_body env num_channels sizeof_samp_type samps_per_buff (poll_stop env ls) with
        | Control.continue_ ls2 =>
            recv_loop env num_channels sizeof_samp_type samps_per_buff
              num_requested_samples fuel ls2
        | Control.break_ ls2 => (LoopExit.timeout_break, ls2)
        | Control.throw_ code ls2 => (LoopExit.thrown code, ls2)
      else (LoopExit.cond_false, poll_stop env ls)

/-- What `recv_to_file` does between the end of the loop and the moment control
leaves it. When the loop ends by its condition or by `break`, lines 93-97 run:
the stop command, then the close loop (the destructors that follow find every
file closed and do nothing to the sinks). When line 84 throws, lines 93-97 are
skipped and the stack is unwound: the elements of the array `outfiles` of line
39 are destroyed, last element first, and each destructor closes its file. A
loop that is still running has reached neither. -/
def exit_events (num_channels : Nat) (num_requested_samples : Int) :
    LoopExit → List SegEvent
  | LoopExit.cond_false =>
      [SegEvent.issue_stream_cmd StreamMode.STOP_CONTINUOUS num_requested_samples] ++
        (List.range num_channels).map SegEvent.close
  | LoopExit.timeout_break =>
      [SegEvent.issue_stream_cmd StreamMode.STOP_CONTINUOUS num_requested_samples] ++
        (List.range num_channels).map SegEvent.close
  | LoopExit.thrown _ => ((List.range num_channels).map SegEvent.destructor_close).reverse
  | LoopExit.running => []

/-- Lines 93-98 and the exits of the function: the events of `exit_events` are
appended to the trace of the loop. -/
def recv_epilogue (num_channels : Nat) (num_requested_samples : Int)
    (res : LoopExit × LoopState) : SegResult :=
  { exit := res.1
    state :=
      { res.2 with
        trace := res.2.trace ++ exit_events num_channels num_requested_samples res.1 } }

/-- The part of `recv_to_file` from a loop state onwards (lines 61-98). -/
def recv_to_file_from (env : SegEnv) (num_channels sizeof_samp_type samps_per_buff : Nat)
    (num_requested_samples : Int) (fuel : Nat) (ls : LoopState) : SegResult :=
  recv_epilogue num_channels num_requested_samples
    (recv_loop env num_channels sizeof_samp_type samps_per_buff num_requested_samples fuel ls)

/-- Lines 22-98. `num_channels` is `usrp->get_rx_num_channels()`,
`sizeof_samp_type` is `sizeof(samp_type)`. -/
def recv_to_file (env : SegEnv) (num_channels sizeof_samp_type samps_per_buff : Nat)
    (num_requested_samples : Int) (fuel : Nat) (stop0 : Bool) : SegResult :=
  recv_to_file_from env num_channels sizeof_samp_type samps_per_buff num_requested_samples fuel
    (recv_prologue num_channels num_requested_samples stop0)

/-- The loop state carried by an iteration outcome. -/
def Control.state : Control → LoopState
  | Control.continue_ ls => ls
  | Control.break_ ls => ls
  | Control.throw_ _ ls => ls

/-- Specification-side count, used to state the accounting: the samples handed
over by the first `k` calls of `recv` that reported `ERROR_CODE_NONE`, as an
unbounded natural number. -/
def samples_delivered (env : SegEnv) : Nat → Nat
  | 0 => 0
  | k + 1 =>
      samples_delivered env k +
        (if (env.recv k).error_code = ErrorCode.NONE then (env.recv k).num_rx_samps else 0)

/-- The stream stop command of line 94. -/
def is_stop_command : SegEvent → Bool
  | SegEvent.issue_stream_cmd StreamMode.STOP_CONTINUOUS _ => true
  | _ => false

/-- The events of the drain: the stop command of line 94, the closes of line
96, and the closes done by the destructors. -/
def is_drain_event : SegEvent → Bool
  | SegEvent.issue_stream_cmd StreamMode.STOP_CONTINUOUS _ => true
  | SegEvent.close _ => true
  | SegEvent.destructor_close _ => true
  | _ => false

/-- Whether the sink of channel `chan` has been closed in a trace, by line 96
or by its destructor. -/
def sink_closed (trace : List SegEvent) (chan : Nat) : Bool :=
  trace.contains (SegEvent.close chan) || trace.contains (SegEvent.destructor_close chan)

/-! ## The sweep loop of UHD_SAFE_MAIN -/

/-- Observable actions of the sweep loop, in program order. -/
inductive MainEvent where
  /-- Lines 251-254: a call of `recv_to_file` while `rx_freq` has the given
  value (the file name is derived from it), with what the call did. -/
  | segment (rx_freq : ℚ) (res : SegResult)
  /-- Lines 261-262: `std::system(killcmd)` with `killall -<sig>` for the peer. -/
  | system_killall (sig : Nat)
  /-- Line 272: `rx_usrp->set_rx_freq(rx_freq, i)`. -/
  | set_rx_freq (rx_freq : ℚ) (chan : Nat)
  deriving DecidableEq

/-- The command-line values the sweep loop reads. -/
structure Config where
  type : String
  spb : Nat
  total_num_samps : Nat
  end_freq : ℚ
  freq_step : ℚ
  rx_num_channels : Nat

/-- The environment of the whole sweep. -/
structure Env where
  /-- The machine's addition of two `double` values, as used by
  `rx_freq += freq_step` on line 267: the sum rounded to a `double`. -/
  fadd : ℚ → ℚ → ℚ
  /-- The environment of the j-th call of `recv_to_file`. -/
  seg : Nat → SegEnv
  /-- Whether `sig_int_handler` has run between the return of the j-th call of
  `recv_to_file` (counted from 1) and the `while` test that follows it. -/
  sigint_main : Nat → Bool

/-- The variables of `UHD_SAFE_MAIN` the sweep loop reads or writes, the
number of `recv_to_file` calls made so far, and the trace. -/
structure MainState where
  rx_freq : ℚ
  stop_signal_called : Bool
  segments : Nat
  trace : List MainEvent
  deriving DecidableEq

/-- How the sweep loop is left. -/
inductive MainExit where
  /-- The loop ended and `main` returned 0 (line 282). -/
  | returned
  /-- The exception thrown by `recv_to_file` on line 84 left the loop. -/
  | thrown_error_code (code : Nat)
  /-- The exception thrown on line 256 left the loop. -/
  | thrown_unknown_type
  /-- The loop is still running when the fuel is used up. -/
  | running
  deriving DecidableEq, Repr

/-- The outcome of one execution of the loop body (lines 251-277). -/
inductive BodyResult where
  | next (st : MainState)
  | thrown_error_code (code : Nat) (st : MainState)
  | thrown_unknown_type (st : MainState)
  | running (st : MainState)
  deriving DecidableEq

/-- The outcome of the sweep loop. -/
structure MainResult where
  exit : MainExit
  state : MainState
  deriving DecidableEq

/-- The template argument chosen on lines 252-254 for each accepted `type`,
as the size in bytes of one sample: `std::complex<double>` is 16,
`std::complex<float>` is 8, `std::complex<short>` is 4. -/
def sizeof_samp_type (type : String) : Option Nat :=
  if type = "double" then some 16
  else if type = "float" then some 8
  else if type = "short" then some 4
  else none

/-- Lines 270-274: the retune loop over the channels. -/
def retune (rx_freq : ℚ) (rx_num_channels : Nat) : List MainEvent :=
  (List.range rx_num_channels).map (MainEvent.set_rx_freq rx_freq)

/-- Lines 261-277: the peer is signalled, then either the stop flag is set
(`rx_freq == end_freq`) or `rx_freq += freq_step` is computed by the machine's
`double` addition and every channel is retuned. -/
def notify_and_advance (env : Env) (cfg : Config) (st : MainState) : MainState :=
  let st1 : MainState := { st with trace := st.trace ++ [MainEvent.system_killall 2] }
  if st1.rx_freq = cfg.end_freq then
    { st1 with stop_signal_called := true }
  else
    { st1 with
      rx_freq := env.fadd st1.rx_freq cfg.freq_step
      trace := st1.trace ++ retune (env.fadd st1.rx_freq cfg.freq_step) cfg.rx_num_channels }

/-- What the loop body does once the call of `recv_to_file` is over: when it
returned, lines 261-277 run; when it threw, the exception leaves the loop. -/
def after_recv (env : Env) (cfg : Config) (st : MainState) (r : SegResult) : BodyResult :=
  let st1 : MainState :=
    { st with
      stop_signal_called := r.state.stop_signal_called
      segments := st.segments + 1
      trace := st.trace ++ [MainEvent.segment st.rx_freq r] }
  match r.exit with
  | LoopExit.running => BodyResult.running st1
  | LoopExit.thrown code => BodyResult.thrown_error_code code st1
  | _ => BodyResult.next (notify_and_advance env cfg st1)

/-- Lines 252-254: the j-th call of `recv_to_file` made by the sweep loop, for
a sample size `sz`, entered with `stop_signal_called = stop`. The `size_t`
`total_num_samps` is converted to the `int` parameter `num_requested_samples`. -/
def sweep_segment (env : Env) (cfg : Config) (lfuel sz j : Nat) (stop : Bool) : SegResult :=
  recv_to_file (env.seg j) cfg.rx_num_channels sz cfg.spb
    (toInt32 (cfg.total_num_samps : Int)) lfuel stop

/-- Lines 251-277: one execution of the loop body. The `size_t`
`total_num_samps` is passed for the `int` parameter `num_requested_samples`.
The statements after the `throw` on line 256 are never executed. -/
def sweep_body (env : Env) (cfg : Config) (lfuel : Nat) (st : MainState) : BodyResult :=
  match sizeof_samp_type cfg.type with
  | none => BodyResult.thrown_unknown_type st
  | some sz =>
      after_recv env cfg st (sweep_segment env cfg lfuel sz st.segments st.stop_signal_called)

/-- The sweep loop from the end of a loop body onwards: the `while` test of
line 278, then further iterations. One unit of fuel is one further iteration;
`lfuel` is the fuel of each receive loop. -/
def sweep_from (env : Env) (cfg : Config) (lfuel : Nat) : Nat → BodyResult → MainResult
  | _, BodyResult.thrown_error_code code st =>
      { exit := MainExit.thrown_error_code code, state := st }
  | _, BodyResult.thrown_unknown_type st =>
      { exit := MainExit.thrown_unknown_type, state := st }
  | _, BodyResult.running st => { exit := MainExit.running, state := st }
  | 0, BodyResult.next st =>
      if st.stop_signal_called || env.sigint_main st.segments then
        { exit := MainExit.returned, state := { st with stop_signal_called := true } }
      else { exit := MainExit.running, state := st }
  | fuel + 1, BodyResult.next st =>
      if st.stop_signal_called || env.sigint_main st.segments then
        { exit := MainExit.returned, state := { st with stop_signal_called := true } }
      else sweep_from env cfg lfuel fuel (sweep_body env cfg lfuel st)

/-- The state in which the sweep loop is entered: `rx_freq` is the start
frequency and `stop0` is the value of `stop_signal_called`. -/
def sweep_init (rx_freq : ℚ) (stop0 : Bool) : MainState :=
  { rx_freq := rx_freq, stop_signal_called := stop0, segments := 0, trace := [] }

/-- Lines 248-282 of `UHD_SAFE_MAIN`: the `do ... while` loop, entered with
`rx_freq` tuned to the start frequency. -/
def UHD_SAFE_MAIN (env : Env) (cfg : Config) (lfuel fuel : Nat) (rx_freq : ℚ)
    (stop0 : Bool) : MainResult :=
  sweep_from env cfg lfuel fuel (sweep_body env cfg lfuel (sweep_init rx_freq stop0))

/-! ## IEEE 754 binary64 addition -/

/-- The power `2 ^ z` as a rational, for an integer exponent. -/
def pow2 : Int → ℚ
  | Int.ofNat n => ((2 ^ n : Nat) : ℚ)
  | Int.negSucc n => 1 / ((2 ^ (n + 1) : Nat) : ℚ)

/-- The integer part of the binary logarithm of `n`, for `1 ≤ n ≤ fuel`. -/
def nat_log2 : Nat → Nat → Nat
  | 0, _ => 0
  | fuel + 1, n => if n < 2 then 0 else nat_log2 fuel (n / 2) + 1

/-- The integer `d` with `2 ^ d ≤ |q| < 2 ^ (d + 1)`, for `q ≠ 0`. -/
def floor_log2 (q : ℚ) : Int :=
  let d : Int := (nat_log2 q.num.natAbs q.num.natAbs : Int) - (nat_log2 q.den q.den : Int)
  if pow2 d ≤ |q| then d else d - 1

/-- Rounding to the nearest integer, a tie going to the even one. -/
def round_half_even (q : ℚ) : Int :=
  if q - ⌊q⌋ < 1 / 2 then ⌊q⌋
  else if 1 / 2 < q - ⌊q⌋ then ⌊q⌋ + 1
  else if ⌊q⌋ % 2 = 0 then ⌊q⌋ else ⌊q⌋ + 1

/-- Rounding of a rational to binary64: a significand of 53 bits, the least
exponent of the subnormal numbers being -1074, ties to even. Values whose
magnitude reaches 2^1024 (infinite on the machine) are outside its domain. -/
def binary64_round (q : ℚ) : ℚ :=
  if q = 0 then 0
  else (round_half_even (q / pow2 (max (floor_log2 q - 52) (-1074))) : ℚ) *
    pow2 (max (floor_log2 q - 52) (-1074))

/-- The binary64 sum of two finite doubles. -/
def double_add (a b : ℚ) : ℚ := binary64_round (a + b)

/-! ## Concrete scenarios -/

/-- Every call delivers samples without fault: 64000, 64000, 12000, and 64000
from then on; SIGINT never arrives. -/
def env_three_transfers : SegEnv :=
  { recv := fun k => if k = 2 then ⟨12000, ErrorCode.NONE⟩ else ⟨64000, ErrorCode.NONE⟩
    sigint := fun _ => false }

/-- Two calls deliver 2^30 samples each without fault, the third reports a
timeout; SIGINT never arrives. -/
def env_counter_wrap : SegEnv :=
  { recv := fun k =>
      if k < 2 then ⟨1073741824, ErrorCode.NONE⟩ else ⟨0, ErrorCode.TIMEOUT⟩
    sigint := fun _ => false }

/-- The fault sequence overflow, overflow, none (64000 samples), overflow, and
then a timeout on every later call; SIGINT never arrives. -/
def env_overflow_burst : SegEnv :=
  { recv := fun k =>
      if k = 2 then ⟨64000, ErrorCode.NONE⟩
      else if k < 4 then ⟨0, ErrorCode.OVERFLOW⟩
      else ⟨0, ErrorCode.TIMEOUT⟩
    sigint := fun _ => false }

/-- The first call delivers 500 samples without fault, the second reports a
timeout; SIGINT never arrives. -/
def env_timeout_second : SegEnv :=
  { recv := fun k => if k = 0 then ⟨500, ErrorCode.NONE⟩ else ⟨0, ErrorCode.TIMEOUT⟩
    sigint := fun _ => false }

/-- The first call reports the error code 2, which is none of
`ERROR_CODE_NONE`, `ERROR_CODE_TIMEOUT`, `ERROR_CODE_OVERFLOW`. -/
def env_fault_first : SegEnv :=
  { recv := fun _ => ⟨0, ErrorCode.OTHER 2⟩
    sigint := fun _ => false }

/-- A long capture with the default buffer size: 33555 calls deliver 64000
samples each without fault (2147520000 samples, about 86 seconds at 25 Msps),
then a call reports a timeout; SIGINT never arrives. -/
def env_long_capture : SegEnv :=
  { recv := fun k => if k < 33555 then ⟨64000, ErrorCode.NONE⟩ else ⟨0, ErrorCode.TIMEOUT⟩
    sigint := fun _ => false }

/-- Every call delivers 500 samples without fault; SIGINT never arrives. -/
def env_steady : SegEnv :=
  { recv := fun _ => ⟨500, ErrorCode.NONE⟩
    sigint := fun _ => false }

/-- Every call delivers 500 samples without fault; SIGINT arrives after the
first call, before the loop condition is evaluated for the second time. -/
def env_sigint_second : SegEnv :=
  { recv := fun _ => ⟨500, ErrorCode.NONE⟩
    sigint := fun k => decide (k = 1) }

/-- A sweep whose segments all run in `env_steady`, with no SIGINT, on a
machine with binary64 doubles. -/
def env_steady_sweep : Env :=
  { fadd := double_add, seg := fun _ => env_steady, sigint_main := fun _ => false }

/-- A sweep in whose segments SIGINT arrives after the first call of `recv`. -/
def env_interrupted_sweep : Env :=
  { fadd := double_add, seg := fun _ => env_sigint_second, sigint_main := fun _ => false }

/-- A sweep whose first call of `recv` reports the error code 2. -/
def env_faulted_sweep : Env :=
  { fadd := double_add, seg := fun _ => env_fault_first, sigint_main := fun _ => false }

/-- Options `--type short --spb 500 --nsamps 1000 --end_freq 110e6
--freq_step 5e6` on a one-channel device. -/
def cfg_sweep : Config :=
  { type := "short", spb := 500, total_num_samps := 1000, end_freq := 110000000,
    freq_step := 5000000, rx_num_channels := 1 }

/-- As `cfg_sweep`, with `--freq_step 4e6`. -/
def cfg_uneven : Config :=
  { type := "short", spb := 500, total_num_samps := 1000, end_freq := 110000000,
    freq_step := 4000000, rx_num_channels := 1 }

/-- The loop state of a one-channel `short` segment with a target of 1000
samples after one fault-free call that delivered 500 samples. -/
def ls_half_way : LoopState :=
  { num_total_samps := 500
    overflow_message := true
    outfiles := [2000]
    stop_signal_called := false
    calls := 1
    trace :=
      [SegEvent.open_file 0, SegEvent.issue_stream_cmd StreamMode.NUM_SAMPS_AND_DONE 1000,
        SegEvent.recv 0 500, SegEvent.write 0 2000] }

/-- As `cfg_sweep`, with `--nsamps 0` (the default): continuous mode. -/
def cfg_continuous : Config :=
  { type := "short", spb := 500, total_num_samps := 0, end_freq := 110000000,
    freq_step := 5000000, rx_num_channels := 1 }

/-- A sweep whose segments all end by a timeout after one transfer, with no
SIGINT, on a machine with binary64 doubles. -/
def env_timeout_sweep : Env :=
  { fadd := double_add, seg := fun _ => env_timeout_second, sigint_main := fun _ => false }

/-- Options `--end_freq 9007199254740994 --freq_step 1` (for a start at
2^53 = 9007199254740992), otherwise as `cfg_sweep`. -/
def cfg_large : Config :=
  { type := "short", spb := 500, total_num_samps := 1000, end_freq := 9007199254740994,
    freq_step := 1, rx_num_channels := 1 }

/-- Options `--end_freq 0.3 --freq_step 0.1` as the machine reads them (each
decimal rounded to a double), otherwise as `cfg_sweep`. -/
def cfg_tenths : Config :=
  { type := "short", spb := 500, total_num_samps := 1000, end_freq := binary64_round (3 / 10),
    freq_step := binary64_round (1 / 10), rx_num_channels := 1 }

/-! ## Auxiliary lemmas: the write loop and the loop body -/

theorem write_all_fold (nbytes : Nat) (n : Nat) (ls : LoopState) :
    (List.range n).foldl
      (fun s i =>
        { s with
          outfiles := s.outfiles.set i (s.outfiles.getD i 0 + nbytes)
          trace := s.trace ++ [SegEvent.write i nbytes] })
      ls =
    { ls with
      outfiles := (ls.outfiles.take n).map (· + nbytes) ++ ls.outfiles.drop n
      trace := ls.trace ++ (List.range n).map (fun i => SegEvent.write i nbytes) } := by
  induction n with
  | zero => simp
  | succ n ih =>
    rw [List.range_succ, List.foldl_append, ih]
    simp only [List.foldl_cons, List.foldl_nil, List.map_append, List.map_cons, List.map_nil,
      List.append_assoc]
    congr 1
    apply List.ext_getElem?
    intro i
    by_cases hn : n < ls.outfiles.length
    · have e1 : (List.take n ls.outfiles).length = n := by simp; omega
      have e2 : (List.take (n+1) ls.outfiles).length = n + 1 := by simp; omega
      simp only [List.getElem?_set, List.getD_eq_getElem?_getD, List.getElem?_append,
        List.getElem?_map, List.getElem?_take, List.getElem?_drop, List.length_map,
        List.length_append, List.length_drop, e1, e2]
      rcases Nat.lt_trichotomy i n with h | h | h
      · have h1 : ¬ n = i := by omega
        have h2 : i < n + 1 := by omega
        simp [h1, h, h2]
      · subst h
        simp [hn]
      · have h1 : ¬ n = i := by omega
        have h2 : ¬ i < n + 1 := by omega
        have h3 : ¬ i < n := by omega
        simp [h1, h2, h3]
        congr 1
        omega
    · have e1 : List.take n ls.outfiles = ls.outfiles := List.take_of_length_le (by omega)
      have e2 : List.take (n+1) ls.outfiles = ls.outfiles := List.take_of_length_le (by omega)
      have e3 : List.drop n ls.outfiles = [] := List.drop_of_length_le (by omega)
      have e4 : List.drop (n+1) ls.outfiles = [] := List.drop_of_length_le (by omega)
      rw [e1, e2, e3, e4]
      simp only [List.append_nil, List.getElem?_set, List.length_map]
      have h1 : ¬ n < ls.outfiles.length := hn
      by_cases h : n = i
      · subst h
        simp [h1]
        rw [List.getElem?_eq_none (by omega)]
        rfl
      · simp [h]

theorem write_all_eq (n nbytes : Nat) (ls : LoopState) :
    write_all n nbytes ls =
      { ls with
        outfiles := (ls.outfiles.take n).map (· + nbytes) ++ ls.outfiles.drop n
        trace := ls.trace ++ (List.range n).map (fun i => SegEvent.write i nbytes) } :=
  write_all_fold nbytes n ls

theorem write_all_outfiles (n nbytes : Nat) (ls : LoopState) (h : ls.outfiles.length = n) :
    (write_all n nbytes ls).outfiles = ls.outfiles.map (· + nbytes) := by
  rw [write_all_eq]
  simp [← h]

theorem toInt32_add (a : Int) (b : Int) : toInt32 (toInt32 a + b) = toInt32 (a + b) := by
  unfold toInt32
  omega

theorem toInt32_of_range (a : Int) (h0 : -2 ^ 31 ≤ a) (h1 : a ≤ 2 ^ 31 - 1) : toInt32 a = a := by
  unfold toInt32
  omega

theorem loop_body_timeout (env : SegEnv) (N sz spb : Nat) (ls : LoopState)
    (h : (env.recv ls.calls).error_code = ErrorCode.TIMEOUT) :
    loop_body env N sz spb ls =
      Control.break_
        { ls with calls := ls.calls + 1
                  trace := ls.trace ++ [SegEvent.recv ls.calls spb] ++ [SegEvent.timeout_msg] } := by
  simp [loop_body, h]

theorem loop_body_overflow (env : SegEnv) (N sz spb : Nat) (ls : LoopState)
    (h : (env.recv ls.calls).error_code = ErrorCode.OVERFLOW) :
    loop_body env N sz spb ls =
      Control.continue_
        { ls with calls := ls.calls + 1
                  overflow_message := false
                  trace := ls.trace ++ [SegEvent.recv ls.calls spb] ++
                    (if ls.overflow_message then [SegEvent.overflow_msg] else []) } := by
  cases hm : ls.overflow_message <;> simp [loop_body, h, hm]

theorem loop_body_other (env : SegEnv) (N sz spb : Nat) (ls : LoopState) (code : Nat)
    (h : (env.recv ls.calls).error_code = ErrorCode.OTHER code) :
    loop_body env N sz spb ls =
      Control.throw_ code
        { ls with calls := ls.calls + 1
                  trace := ls.trace ++ [SegEvent.recv ls.calls spb] } := by
  simp [loop_body, h]

theorem loop_body_none (env : SegEnv) (N sz spb : Nat) (ls : LoopState)
    (h : (env.recv ls.calls).error_code = ErrorCode.NONE) :
    loop_body env N sz spb ls =
      Control.continue_
        { ls with
          num_total_samps := toInt32 (ls.num_total_samps + (env.recv ls.calls).num_rx_samps)
          calls := ls.calls + 1
          outfiles := (ls.outfiles.take N).map (· + (env.recv ls.calls).num_rx_samps * sz) ++
            ls.outfiles.drop N
          trace := ls.trace ++ [SegEvent.recv ls.calls spb] ++
            (List.range N).map
              (fun i => SegEvent.write i ((env.recv ls.calls).num_rx_samps * sz)) } := by
  simp [loop_body, h, write_all_eq]

theorem recv_loop_invariant (env : SegEnv) (N sz spb : Nat) (req : Int) (P : LoopState → Prop)
    (hpoll : ∀ ls, P ls → P (poll_stop env ls))
    (hbody : ∀ ls, P ls → loop_cond req ls = true → P (loop_body env N sz spb ls).state) :
    ∀ (fuel : Nat) (ls : LoopState), P ls → P (recv_loop env N sz spb req fuel ls).2 := by
  intro fuel
  induction fuel with
  | zero =>
    intro ls h
    simp only [recv_loop]
    split <;> exact hpoll ls h
  | succ fuel ih =>
    intro ls h
    simp only [recv_loop]
    split
    · next hc =>
      have hb := hbody _ (hpoll ls h) hc
      cases hlb : loop_body env N sz spb (poll_stop env ls) with
      | continue_ ls2 => rw [hlb] at hb; exact ih ls2 hb
      | break_ ls2 => rw [hlb] at hb; exact hb
      | throw_ code ls2 => rw [hlb] at hb; exact hb
    · exact hpoll ls h

/-! ## Bounded mode -/

theorem recv_loop_bounded (env : SegEnv) (N sz spb : Nat) (req : Int)
    (hreq : 0 < req) (hmax : req + spb - 1 ≤ 2 ^ 31 - 1)
    (hrecv : ∀ k, (env.recv k).error_code = ErrorCode.NONE ∧
      1 ≤ (env.recv k).num_rx_samps ∧ (env.recv k).num_rx_samps ≤ spb)
    (hstop : ∀ k, env.sigint k = false) :
    ∀ (fuel : Nat) (ls : LoopState), ls.stop_signal_called = false →
      0 ≤ ls.num_total_samps → ls.num_total_samps ≤ req + spb - 1 →
      req - ls.num_total_samps ≤ fuel →
      ls.outfiles = List.replicate N (ls.num_total_samps.toNat * sz) →
      (recv_loop env N sz spb req fuel ls).1 = LoopExit.cond_false ∧
      req ≤ (recv_loop env N sz spb req fuel ls).2.num_total_samps ∧
      (recv_loop env N sz spb req fuel ls).2.num_total_samps ≤ req + spb - 1 ∧
      (recv_loop env N sz spb req fuel ls).2.outfiles =
        List.replicate N ((recv_loop env N sz spb req fuel ls).2.num_total_samps.toNat * sz) := by
  intro fuel
  induction fuel with
  | zero =>
    intro ls hs h0 h1 hf hout
    have hp : poll_stop env ls = ls := by
      cases ls; simp_all [poll_stop]
    have hc : loop_cond req ls = false := by
      simp [loop_cond, hs]
      omega
    simp only [recv_loop, hp, hc]
    simp
    refine ⟨by omega, h1, hout⟩
  | succ fuel ih =>
    intro ls hs h0 h1 hf hout
    have hp : poll_stop env ls = ls := by
      cases ls; simp_all [poll_stop]
    simp only [recv_loop, hp]
    split
    · next hc =>
      have hlt : ls.num_total_samps < req := by
        simp [loop_cond, hs] at hc
        omega
      obtain ⟨he, hn1, hn2⟩ := hrecv ls.calls
      rw [loop_body_none env N sz spb ls he]
      simp only
      have hw : toInt32 (ls.num_total_samps + ((env.recv ls.calls).num_rx_samps : Int)) =
          ls.num_total_samps + ((env.recv ls.calls).num_rx_samps : Int) :=
        toInt32_of_range _ (by omega) (by omega)
      apply ih
      · exact hs
      · simp only [hw]; omega
      · simp only [hw]; omega
      · simp only [hw]; push_cast at hf; omega
      · simp only [hw, hout]
        have hl : (List.replicate N (ls.num_total_samps.toNat * sz)).length = N := by simp
        rw [List.take_of_length_le (by omega), List.drop_of_length_le (by omega)]
        simp only [List.map_replicate, List.append_nil]
        congr 1
        have : (ls.num_total_samps + ((env.recv ls.calls).num_rx_samps : Int)).toNat =
            ls.num_total_samps.toNat + (env.recv ls.calls).num_rx_samps := by omega
        rw [this, Nat.add_mul]
    · next hc =>
      simp [loop_cond, hs] at hc
      exact ⟨rfl, by dsimp only; omega, h1, hout⟩

/-- C1: in bounded mode (`0 < num_requested_samples`), with `1 ≤ samps_per_buff`
and `num_requested_samples + samps_per_buff - 1 ≤ 2^31 - 1`, when every call of
`recv` reports no fault and returns between 1 and `samps_per_buff` samples and
the stop flag is never raised, the receive loop ends by its condition within
`num_requested_samples` iterations, and `num_total_samps` at exit is at least
`num_requested_samples` and at most `num_requested_samples + samps_per_buff - 1`;
every one of the sinks holds exactly that many samples. -/
theorem C1_bounded_mode_sample_bounds (env : SegEnv) (N sz spb : Nat) (req : Int) (fuel : Nat)
    (hreq : 0 < req) (hspb : 1 ≤ spb) (hmax : req + spb - 1 ≤ 2 ^ 31 - 1)
    (hrecv : ∀ k, (env.recv k).error_code = ErrorCode.NONE ∧
      1 ≤ (env.recv k).num_rx_samps ∧ (env.recv k).num_rx_samps ≤ spb)
    (hstop : ∀ k, env.sigint k = false)
    (hfuel : req ≤ fuel) :
    (recv_to_file env N sz spb req fuel false).exit = LoopExit.cond_false ∧
    req ≤ (recv_to_file env N sz spb req fuel false).state.num_total_samps ∧
    (recv_to_file env N sz spb req fuel false).state.num_total_samps ≤ req + spb - 1 ∧
    (recv_to_file env N sz spb req fuel false).state.outfiles =
      List.replicate N
        ((recv_to_file env N sz spb req fuel false).state.num_total_samps.toNat * sz) := by
  have h := recv_loop_bounded env N sz spb req hreq hmax hrecv hstop fuel
    (recv_prologue N req false) rfl (by simp [recv_prologue]) (by simp [recv_prologue]; omega)
    (by simp [recv_prologue]; omega) (by simp [recv_prologue])
  obtain ⟨h1, h2, h3, h4⟩ := h
  simp only [recv_to_file, recv_to_file_from, recv_epilogue, h1]
  exact ⟨trivial, h2, h3, h4⟩


/-- C1 at a concrete input: one channel, `short` samples, a target of 140000
samples with buffers of 64000. -/
theorem C1_witness :
    (recv_to_file env_three_transfers 1 4 64000 140000 140000 false).exit = LoopExit.cond_false ∧
    (140000 : Int) ≤
      (recv_to_file env_three_transfers 1 4 64000 140000 140000 false).state.num_total_samps ∧
    (recv_to_file env_three_transfers 1 4 64000 140000 140000 false).state.num_total_samps ≤
      140000 + ((64000 : Nat) : Int) - 1 ∧
    (recv_to_file env_three_transfers 1 4 64000 140000 140000 false).state.outfiles =
      List.replicate 1
        ((recv_to_file env_three_transfers 1 4 64000 140000 140000
          false).state.num_total_samps.toNat * 4) :=
  C1_bounded_mode_sample_bounds env_three_transfers 1 4 64000 140000 140000 (by decide)
    (by decide) (by decide)
    (fun k => by unfold env_three_transfers; by_cases h : k = 2 <;> simp [h])
    (fun _ => rfl) (by decide)

/-! ## Byte accounting -/

theorem poll_stop_fields (env : SegEnv) (ls : LoopState) :
    (poll_stop env ls).num_total_samps = ls.num_total_samps ∧
    (poll_stop env ls).overflow_message = ls.overflow_message ∧
    (poll_stop env ls).outfiles = ls.outfiles ∧
    (poll_stop env ls).calls = ls.calls ∧
    (poll_stop env ls).trace = ls.trace := by
  simp [poll_stop]

theorem recv_epilogue_fields (N : Nat) (req : Int) (res : LoopExit × LoopState) :
    (recv_epilogue N req res).exit = res.1 ∧
    (recv_epilogue N req res).state.num_total_samps = res.2.num_total_samps ∧
    (recv_epilogue N req res).state.overflow_message = res.2.overflow_message ∧
    (recv_epilogue N req res).state.outfiles = res.2.outfiles ∧
    (recv_epilogue N req res).state.calls = res.2.calls ∧
    (recv_epilogue N req res).state.stop_signal_called = res.2.stop_signal_called :=
  ⟨rfl, rfl, rfl, rfl, rfl, rfl⟩

theorem accounted_body (env : SegEnv) (N sz spb : Nat) (ls : LoopState)
    (h1 : ls.outfiles = List.replicate N (samples_delivered env ls.calls * sz))
    (h2 : ls.num_total_samps = toInt32 (samples_delivered env ls.calls)) :
    (loop_body env N sz spb ls).state.outfiles =
        List.replicate N (samples_delivered env (loop_body env N sz spb ls).state.calls * sz) ∧
      (loop_body env N sz spb ls).state.num_total_samps =
        toInt32 (samples_delivered env (loop_body env N sz spb ls).state.calls) := by
  cases he : (env.recv ls.calls).error_code with
  | TIMEOUT =>
    rw [loop_body_timeout env N sz spb ls he]
    simp [Control.state, samples_delivered, he, h1, h2]
  | OVERFLOW =>
    rw [loop_body_overflow env N sz spb ls he]
    simp [Control.state, samples_delivered, he, h1, h2]
  | OTHER code =>
    rw [loop_body_other env N sz spb ls code he]
    simp [Control.state, samples_delivered, he, h1, h2]
  | NONE =>
    rw [loop_body_none env N sz spb ls he]
    simp only [Control.state, samples_delivered, he, if_true]
    constructor
    · rw [h1]
      have hl : (List.replicate N (samples_delivered env ls.calls * sz)).length = N := by simp
      rw [List.take_of_length_le (by omega), List.drop_of_length_le (by omega)]
      simp only [List.map_replicate, List.append_nil, Nat.add_mul]
    · rw [h2, toInt32_add]
      push_cast
      rfl

theorem recv_to_file_accounted (env : SegEnv) (N sz spb : Nat) (req : Int) (fuel : Nat)
    (stop0 : Bool) :
    (recv_to_file env N sz spb req fuel stop0).state.outfiles =
        List.replicate N
          (samples_delivered env (recv_to_file env N sz spb req fuel stop0).state.calls * sz) ∧
      (recv_to_file env N sz spb req fuel stop0).state.num_total_samps =
        toInt32
          (samples_delivered env (recv_to_file env N sz spb req fuel stop0).state.calls) := by
  have h := recv_loop_invariant env N sz spb req
    (fun ls => ls.outfiles = List.replicate N (samples_delivered env ls.calls * sz) ∧
      ls.num_total_samps = toInt32 (samples_delivered env ls.calls))
    (fun ls h => by
      obtain ⟨h1, _, h3, h4, _⟩ := poll_stop_fields env ls
      simpa [h1, h3, h4] using h)
    (fun ls h _ => accounted_body env N sz spb ls h.1 h.2) fuel (recv_prologue N req stop0)
    (by simp [recv_prologue, samples_delivered, toInt32])
  obtain ⟨_, h2, _, h4, h5, _⟩ := recv_epilogue_fields N req
    (recv_loop env N sz spb req fuel (recv_prologue N req stop0))
  simpa [recv_to_file, recv_to_file_from, h2, h4, h5] using h

/-- C2 (amended): a call of `recv` that reports no fault appends exactly
`num_rx_samps * sizeof(samp_type)` bytes to each of the `num_channels` sinks,
the same count for every channel. When the segment is left, every sink holds
exactly `S * sizeof(samp_type)` bytes, where `S` is the sum of the counts
returned by the fault-free calls, and `num_total_samps` is `S` reduced to a
32-bit signed `int`; so the sinks hold `num_total_samps * sizeof(samp_type)`
bytes whenever `S ≤ 2^31 - 1`. -/
theorem C2_byte_accounting (env : SegEnv) (N sz spb : Nat) (req : Int) (fuel : Nat)
    (stop0 : Bool) :
    (∀ ls : LoopState, ls.outfiles.length = N →
      (env.recv ls.calls).error_code = ErrorCode.NONE →
      ∃ ls2, loop_body env N sz spb ls = Control.continue_ ls2 ∧
        ls2.outfiles = ls.outfiles.map (· + (env.recv ls.calls).num_rx_samps * sz) ∧
        ls2.trace = ls.trace ++ [SegEvent.recv ls.calls spb] ++
          (List.range N).map
            (fun i => SegEvent.write i ((env.recv ls.calls).num_rx_samps * sz))) ∧
    (recv_to_file env N sz spb req fuel stop0).state.outfiles =
      List.replicate N
        (samples_delivered env (recv_to_file env N sz spb req fuel stop0).state.calls * sz) ∧
    (recv_to_file env N sz spb req fuel stop0).state.num_total_samps =
      toInt32 (samples_delivered env (recv_to_file env N sz spb req fuel stop0).state.calls) ∧
    (samples_delivered env (recv_to_file env N sz spb req fuel stop0).state.calls ≤ 2 ^ 31 - 1 →
      (recv_to_file env N sz spb req fuel stop0).state.outfiles =
        List.replicate N
          ((recv_to_file env N sz spb req fuel stop0).state.num_total_samps.toNat * sz)) := by
  obtain ⟨h1, h2⟩ := recv_to_file_accounted env N sz spb req fuel stop0
  refine ⟨?_, h1, h2, ?_⟩
  · intro ls hl he
    refine ⟨_, loop_body_none env N sz spb ls he, ?_, rfl⟩
    simp only
    rw [List.take_of_length_le (by omega), List.drop_of_length_le (by omega), List.append_nil]
  · intro hle
    rw [h2, toInt32_of_range _ (by omega) (by omega)]
    simpa using h1

/-- C2 at the scenario of the specification: one channel, `short` samples,
fault-free transfers of 64000, 64000 and 12000 samples with a target of 140000
give `num_total_samps = 140000` and a sink of 560000 bytes. -/
theorem C2_witness :
    (recv_to_file env_three_transfers 1 4 64000 140000 10 false).state.num_total_samps = 140000 ∧
    (recv_to_file env_three_transfers 1 4 64000 140000 10 false).state.outfiles = [560000] := by
  have h := (C2_byte_accounting env_three_transfers 1 4 64000 140000 10 false).2.2.2 (by decide)
  have e : (recv_to_file env_three_transfers 1 4 64000 140000 10 false).state.num_total_samps
      = 140000 := by decide
  rw [e] at h
  exact ⟨e, h⟩

theorem recv_loop_continuous_until_timeout (env : SegEnv) (N sz spb n : Nat)
    (hnone : ∀ k, k < n → (env.recv k).error_code = ErrorCode.NONE)
    (htime : (env.recv n).error_code = ErrorCode.TIMEOUT)
    (hsig : ∀ k, env.sigint k = false) :
    ∀ (fuel : Nat) (ls : LoopState), ls.stop_signal_called = false → ls.calls ≤ n →
      n - ls.calls < fuel → (recv_loop env N sz spb 0 fuel ls).2.calls = n + 1 := by
  intro fuel
  induction fuel with
  | zero => intro ls _ _ h; omega
  | succ fuel ih =>
    intro ls hs hle hf
    have hp : poll_stop env ls = ls := by
      cases ls; simp_all [poll_stop]
    have hc : loop_cond 0 ls = true := by simp [loop_cond, hs]
    simp only [recv_loop, hp, hc, if_true]
    rcases Nat.lt_or_eq_of_le hle with hlt | heq
    · rw [loop_body_none env N sz spb ls (hnone _ hlt)]
      exact ih _ hs (by simp only; omega) (by simp only; omega)
    · rw [loop_body_timeout env N sz spb ls (heq ▸ htime)]
      simp only [heq]

theorem samples_delivered_constant (env : SegEnv) (c : Nat) :
    ∀ m : Nat, (∀ k, k < m → env.recv k = ⟨c, ErrorCode.NONE⟩) →
      samples_delivered env m = m * c := by
  intro m
  induction m with
  | zero => intro _; simp [samples_delivered]
  | succ m ih =>
    intro h
    rw [samples_delivered, ih (fun k hk => h k (by omega)), h m (by omega)]
    simp [Nat.add_mul]

/-- C2 as stated fails, in continuous mode with one channel of `short`
samples. After 33555 fault-free transfers of 64000 samples and a timeout the
sink holds 8590080000 bytes while `num_total_samps` is -2147447296; after two
fault-free transfers of 2^30 samples and a timeout the sink holds 2^33 bytes
while `num_total_samps` is -2^31. In both runs the sink does not hold
`num_total_samps * 4` bytes. -/
theorem C2_counterexample :
    ((recv_to_file env_long_capture 1 4 64000 0 33556 false).state.num_total_samps
        = -2147447296 ∧
      (recv_to_file env_long_capture 1 4 64000 0 33556 false).state.outfiles = [8590080000] ∧
      ¬ (∀ b ∈ (recv_to_file env_long_capture 1 4 64000 0 33556 false).state.outfiles,
          (b : Int) =
            (recv_to_file env_long_capture 1 4 64000 0 33556 false).state.num_total_samps
              * 4)) ∧
    ((recv_to_file env_counter_wrap 1 4 1073741824 0 3 false).exit = LoopExit.timeout_break ∧
      (recv_to_file env_counter_wrap 1 4 1073741824 0 3 false).state.num_total_samps
        = -2147483648 ∧
      (recv_to_file env_counter_wrap 1 4 1073741824 0 3 false).state.outfiles = [8589934592] ∧
      ¬ (∀ b ∈ (recv_to_file env_counter_wrap 1 4 1073741824 0 3 false).state.outfiles,
          (b : Int) =
            (recv_to_file env_counter_wrap 1 4 1073741824 0 3 false).state.num_total_samps
              * 4)) := by
  refine ⟨?_, by decide⟩
  have hcalls : (recv_to_file env_long_capture 1 4 64000 0 33556 false).state.calls = 33556 := by
    obtain ⟨_, _, _, _, h5, _⟩ := recv_epilogue_fields 1 0
      (recv_loop env_long_capture 1 4 64000 0 33556 (recv_prologue 1 0 false))
    simp only [recv_to_file, recv_to_file_from, h5]
    exact recv_loop_continuous_until_timeout env_long_capture 1 4 64000 33555
      (fun k hk => by simp [env_long_capture, hk]) (by simp [env_long_capture]) (fun _ => rfl)
      33556 (recv_prologue 1 0 false) rfl (Nat.zero_le _) (by simp [recv_prologue])
  have hs : samples_delivered env_long_capture 33556 = 2147520000 := by
    have h1 := samples_delivered_constant env_long_capture 64000 33555
      (fun k hk => by simp [env_long_capture, hk])
    rw [samples_delivered, h1]
    simp [env_long_capture]
  obtain ⟨h1, h2⟩ := recv_to_file_accounted env_long_capture 1 4 64000 0 33556 false
  rw [hcalls, hs] at h1 h2
  rw [h1, h2]
  decide

/-! ## Overflow handling -/

theorem overflow_inv_body (env : SegEnv) (N sz spb : Nat) (ls : LoopState)
    (ha : ls.trace.count SegEvent.overflow_msg = if ls.overflow_message then 0 else 1)
    (hb : ls.overflow_message = true ↔
      ∀ k, k < ls.calls → (env.recv k).error_code ≠ ErrorCode.OVERFLOW)
    (hc : ∀ k, k < ls.calls → (env.recv k).error_code = ErrorCode.OVERFLOW →
      (∀ j, j < k → (env.recv j).error_code ≠ ErrorCode.OVERFLOW) →
      [SegEvent.recv k spb, SegEvent.overflow_msg] <:+: ls.trace) :
    ((loop_body env N sz spb ls).state.trace.count SegEvent.overflow_msg =
        if (loop_body env N sz spb ls).state.overflow_message then 0 else 1) ∧
    ((loop_body env N sz spb ls).state.overflow_message = true ↔
      ∀ k, k < (loop_body env N sz spb ls).state.calls →
        (env.recv k).error_code ≠ ErrorCode.OVERFLOW) ∧
    (∀ k, k < (loop_body env N sz spb ls).state.calls →
      (env.recv k).error_code = ErrorCode.OVERFLOW →
      (∀ j, j < k → (env.recv j).error_code ≠ ErrorCode.OVERFLOW) →
      [SegEvent.recv k spb, SegEvent.overflow_msg] <:+: (loop_body env N sz spb ls).state.trace) := by
  have hext : ∀ (k : Nat) (t : List SegEvent), k < ls.calls + 1 →
      (env.recv ls.calls).error_code ≠ ErrorCode.OVERFLOW →
      (env.recv k).error_code = ErrorCode.OVERFLOW →
      (∀ j, j < k → (env.recv j).error_code ≠ ErrorCode.OVERFLOW) →
      [SegEvent.recv k spb, SegEvent.overflow_msg] <:+: ls.trace ++ t := by
    intro k t hk hne hov hfirst
    have hk2 : k < ls.calls := by
      rcases Nat.lt_succ_iff_lt_or_eq.mp hk with h | h
      · exact h
      · subst h; exact absurd hov hne
    exact (hc k hk2 hov hfirst).trans (List.prefix_append _ _).isInfix
  have hall : (env.recv ls.calls).error_code ≠ ErrorCode.OVERFLOW →
      ((∀ k, k < ls.calls + 1 → (env.recv k).error_code ≠ ErrorCode.OVERFLOW) ↔
        ∀ k, k < ls.calls → (env.recv k).error_code ≠ ErrorCode.OVERFLOW) := by
    intro hne
    constructor
    · intro h k hk; exact h k (by omega)
    · intro h k hk
      rcases Nat.lt_succ_iff_lt_or_eq.mp hk with h2 | h2
      · exact h k h2
      · subst h2; exact hne
  cases he : (env.recv ls.calls).error_code with
  | TIMEOUT =>
    have hne : (env.recv ls.calls).error_code ≠ ErrorCode.OVERFLOW := by simp [he]
    rw [loop_body_timeout env N sz spb ls he]
    simp only [Control.state, List.append_assoc]
    refine ⟨?_, hb.trans (hall hne).symm, fun k hk hov hf => hext k _ hk hne hov hf⟩
    simp [List.count_append, ha]
  | OTHER code =>
    have hne : (env.recv ls.calls).error_code ≠ ErrorCode.OVERFLOW := by simp [he]
    rw [loop_body_other env N sz spb ls code he]
    simp only [Control.state]
    refine ⟨?_, hb.trans (hall hne).symm, fun k hk hov hf => hext k _ hk hne hov hf⟩
    simp [List.count_append, ha]
  | NONE =>
    have hne : (env.recv ls.calls).error_code ≠ ErrorCode.OVERFLOW := by simp [he]
    rw [loop_body_none env N sz spb ls he]
    simp only [Control.state, List.append_assoc]
    refine ⟨?_, hb.trans (hall hne).symm, fun k hk hov hf => hext k _ hk hne hov hf⟩
    have hz : List.count SegEvent.overflow_msg
        (List.map (fun i => SegEvent.write i ((env.recv ls.calls).num_rx_samps * sz))
          (List.range N)) = 0 := by
      rw [List.count_eq_zero]
      simp
    simp [List.count_append, ha, hz]
  | OVERFLOW =>
    rw [loop_body_overflow env N sz spb ls he]
    simp only [Control.state]
    refine ⟨?_, ?_, ?_⟩
    · cases hm : ls.overflow_message <;> simp [List.count_append, ha, hm]
    · simp only [Bool.false_eq_true, false_iff, not_forall]
      exact ⟨ls.calls, by omega, by simp [he]⟩
    · intro k hk hov hfirst
      rcases Nat.lt_succ_iff_lt_or_eq.mp hk with h | h
      · exact (hc k h hov hfirst).trans
          ((List.prefix_append _ _).isInfix.trans (List.prefix_append _ _).isInfix)
      · subst h
        have hm : ls.overflow_message = true := hb.mpr hfirst
        simp only [hm, if_true, List.append_assoc]
        exact ⟨ls.trace, [], by simp⟩


theorem recv_epilogue_trace (N : Nat) (req : Int) (res : LoopExit × LoopState) :
    (recv_epilogue N req res).state.trace = res.2.trace ++ exit_events N req res.1 :=
  rfl

theorem exit_events_no_overflow_msg (N : Nat) (req : Int) (x : LoopExit) :
    ∀ e ∈ exit_events N req x, e ≠ SegEvent.overflow_msg := by
  intro e he
  cases x <;> simp [exit_events] at he
  · rcases he with h | ⟨i, _, h⟩ <;> subst h <;> simp
  · rcases he with h | ⟨i, _, h⟩ <;> subst h <;> simp
  · obtain ⟨i, _, h⟩ := he
    subst h
    simp

theorem recv_to_file_overflow_inv (env : SegEnv) (N sz spb : Nat) (req : Int) (fuel : Nat)
    (stop0 : Bool) :
    ((recv_to_file env N sz spb req fuel stop0).state.trace.count SegEvent.overflow_msg =
        if (recv_to_file env N sz spb req fuel stop0).state.overflow_message then 0 else 1) ∧
    ((recv_to_file env N sz spb req fuel stop0).state.overflow_message = true ↔
      ∀ k, k < (recv_to_file env N sz spb req fuel stop0).state.calls →
        (env.recv k).error_code ≠ ErrorCode.OVERFLOW) ∧
    (∀ k, k < (recv_to_file env N sz spb req fuel stop0).state.calls →
      (env.recv k).error_code = ErrorCode.OVERFLOW →
      (∀ j, j < k → (env.recv j).error_code ≠ ErrorCode.OVERFLOW) →
      [SegEvent.recv k spb, SegEvent.overflow_msg] <:+:
        (recv_to_file env N sz spb req fuel stop0).state.trace) := by
  have h := recv_loop_invariant env N sz spb req
    (fun ls =>
      (ls.trace.count SegEvent.overflow_msg = if ls.overflow_message then 0 else 1) ∧
      (ls.overflow_message = true ↔
        ∀ k, k < ls.calls → (env.recv k).error_code ≠ ErrorCode.OVERFLOW) ∧
      (∀ k, k < ls.calls → (env.recv k).error_code = ErrorCode.OVERFLOW →
        (∀ j, j < k → (env.recv j).error_code ≠ ErrorCode.OVERFLOW) →
        [SegEvent.recv k spb, SegEvent.overflow_msg] <:+: ls.trace))
    (fun ls h => by
      obtain ⟨_, h2, _, h4, h5⟩ := poll_stop_fields env ls
      simpa only [h2, h4, h5] using h)
    (fun ls h _ => overflow_inv_body env N sz spb ls h.1 h.2.1 h.2.2) fuel
    (recv_prologue N req stop0)
    (by
      refine ⟨?_, ?_, ?_⟩
      · simp only [recv_prologue, if_true]
        rw [List.count_eq_zero]
        simp
      · simp [recv_prologue]
      · intro k hk
        simp [recv_prologue] at hk)
  obtain ⟨_, _, h3, _, h5, _⟩ := recv_epilogue_fields N req
    (recv_loop env N sz spb req fuel (recv_prologue N req stop0))
  have ht := recv_epilogue_trace N req
    (recv_loop env N sz spb req fuel (recv_prologue N req stop0))
  simp only [recv_to_file, recv_to_file_from, h3, h5, ht]
  obtain ⟨ha, hb, hc⟩ := h
  refine ⟨?_, hb, fun k hk hov hf => (hc k hk hov hf).trans (List.prefix_append _ _).isInfix⟩
  rw [List.count_append, ha]
  have hz : ∀ t : List SegEvent, (∀ e ∈ t, e ≠ SegEvent.overflow_msg) →
      List.count SegEvent.overflow_msg t = 0 := by
    intro t ht
    rw [List.count_eq_zero]
    intro hmem
    exact ht _ hmem rfl
  rw [hz _ (exit_events_no_overflow_msg N req _)]
  simp

/-- C3: within one segment the overflow warning is emitted exactly once when at
least one call of `recv` issued by the loop reports overflow, right after the
first such call, and never otherwise; an iteration whose call reports overflow
writes nothing to any sink, leaves `num_total_samps` unchanged and continues
the loop. -/
theorem C3_overflow_handling (env : SegEnv) (N sz spb : Nat) (req : Int) (fuel : Nat)
    (stop0 : Bool) :
    ((∃ k, k < (recv_to_file env N sz spb req fuel stop0).state.calls ∧
        (env.recv k).error_code = ErrorCode.OVERFLOW) →
      (recv_to_file env N sz spb req fuel stop0).state.trace.count SegEvent.overflow_msg = 1) ∧
    ((∀ k, k < (recv_to_file env N sz spb req fuel stop0).state.calls →
        (env.recv k).error_code ≠ ErrorCode.OVERFLOW) →
      (recv_to_file env N sz spb req fuel stop0).state.trace.count SegEvent.overflow_msg = 0) ∧
    (∀ k, k < (recv_to_file env N sz spb req fuel stop0).state.calls →
      (env.recv k).error_code = ErrorCode.OVERFLOW →
      (∀ j, j < k → (env.recv j).error_code ≠ ErrorCode.OVERFLOW) →
      [SegEvent.recv k spb, SegEvent.overflow_msg] <:+:
        (recv_to_file env N sz spb req fuel stop0).state.trace) ∧
    (∀ ls : LoopState, (env.recv ls.calls).error_code = ErrorCode.OVERFLOW →
      ∃ ls2, loop_body env N sz spb ls = Control.continue_ ls2 ∧
        ls2.outfiles = ls.outfiles ∧ ls2.num_total_samps = ls.num_total_samps ∧
        ls2.trace = ls.trace ++ [SegEvent.recv ls.calls spb] ++
          (if ls.overflow_message then [SegEvent.overflow_msg] else [])) := by
  obtain ⟨ha, hb, hc⟩ := recv_to_file_overflow_inv env N sz spb req fuel stop0
  refine ⟨?_, ?_, hc, ?_⟩
  · rintro ⟨k, hk, hov⟩
    have hm : (recv_to_file env N sz spb req fuel stop0).state.overflow_message = false := by
      cases hmv : (recv_to_file env N sz spb req fuel stop0).state.overflow_message
      · rfl
      · exact absurd hov (hb.mp hmv k hk)
    rw [ha, hm]
    simp
  · intro hall
    rw [ha, hb.mpr hall]
    simp
  · intro ls he
    exact ⟨_, loop_body_overflow env N sz spb ls he, rfl, rfl, rfl⟩

/-- C3 at the fault sequence overflow, overflow, none, overflow: one warning,
right after the first call, and only the fault-free transfer is counted and
written. -/
theorem C3_witness :
    (recv_to_file env_overflow_burst 1 4 64000 0 10 false).state.calls = 5 ∧
    (recv_to_file env_overflow_burst 1 4 64000 0 10 false).state.trace.count
      SegEvent.overflow_msg = 1 ∧
    [SegEvent.recv 0 64000, SegEvent.overflow_msg] <:+:
      (recv_to_file env_overflow_burst 1 4 64000 0 10 false).state.trace ∧
    (recv_to_file env_overflow_burst 1 4 64000 0 10 false).state.num_total_samps = 64000 ∧
    (recv_to_file env_overflow_burst 1 4 64000 0 10 false).state.outfiles = [256000] :=
  ⟨by decide,
    (C3_overflow_handling env_overflow_burst 1 4 64000 0 10 false).1
      ⟨0, by decide, by decide⟩,
    (C3_overflow_handling env_overflow_burst 1 4 64000 0 10 false).2.2.1 0 (by decide)
      (by decide) (fun j hj => absurd hj (Nat.not_lt_zero j)),
    by decide, by decide⟩

/-! ## Timeout handling -/

theorem loop_body_calls (env : SegEnv) (N sz spb : Nat) (ls : LoopState) :
    (loop_body env N sz spb ls).state.calls = ls.calls + 1 := by
  cases he : (env.recv ls.calls).error_code with
  | TIMEOUT => rw [loop_body_timeout env N sz spb ls he]; rfl
  | OVERFLOW => rw [loop_body_overflow env N sz spb ls he]; rfl
  | OTHER code => rw [loop_body_other env N sz spb ls code he]; rfl
  | NONE => rw [loop_body_none env N sz spb ls he]; rfl

theorem recv_loop_stops_at_timeout (env : SegEnv) (N sz spb : Nat) (req : Int) (k : Nat)
    (hk : (env.recv k).error_code = ErrorCode.TIMEOUT) :
    ∀ (fuel : Nat) (ls : LoopState), ls.calls ≤ k →
      (recv_loop env N sz spb req fuel ls).2.calls ≤ k + 1 ∧
      ((recv_loop env N sz spb req fuel ls).2.calls = k + 1 →
        (recv_loop env N sz spb req fuel ls).1 = LoopExit.timeout_break) := by
  intro fuel
  induction fuel with
  | zero =>
    intro ls hle
    simp only [recv_loop]
    split <;> simp [poll_stop] <;> omega
  | succ fuel ih =>
    intro ls hle
    simp only [recv_loop]
    split
    · have hc := loop_body_calls env N sz spb (poll_stop env ls)
      have hp : (poll_stop env ls).calls = ls.calls := rfl
      rcases Nat.lt_or_eq_of_le hle with hlt | heq
      · cases hb : loop_body env N sz spb (poll_stop env ls) with
        | continue_ ls2 =>
          rw [hb] at hc
          exact ih ls2 (by simp only [Control.state] at hc; omega)
        | break_ ls2 =>
          rw [hb] at hc
          simp only [Control.state] at hc
          exact ⟨by simp only; omega, fun _ => rfl⟩
        | throw_ code ls2 =>
          rw [hb] at hc
          simp only [Control.state] at hc
          exact ⟨by simp only; omega, fun h => by simp only at h; omega⟩
      · have he : (env.recv (poll_stop env ls).calls).error_code = ErrorCode.TIMEOUT := by
          rw [hp, heq]; exact hk
        rw [loop_body_timeout env N sz spb _ he]
        exact ⟨by simp only; omega, fun _ => rfl⟩
    · simp [poll_stop]
      omega

theorem after_recv_returned (env : Env) (cfg : Config) (st : MainState) (r : SegResult)
    (h : r.exit = LoopExit.cond_false ∨ r.exit = LoopExit.timeout_break) :
    after_recv env cfg st r =
      BodyResult.next
        { rx_freq :=
            if st.rx_freq = cfg.end_freq then st.rx_freq
            else env.fadd st.rx_freq cfg.freq_step
          stop_signal_called :=
            if st.rx_freq = cfg.end_freq then true else r.state.stop_signal_called
          segments := st.segments + 1
          trace := st.trace ++ [MainEvent.segment st.rx_freq r, MainEvent.system_killall 2] ++
            (if st.rx_freq = cfg.end_freq then []
             else retune (env.fadd st.rx_freq cfg.freq_step) cfg.rx_num_channels) } := by
  have e : after_recv env cfg st r =
      BodyResult.next (notify_and_advance env cfg
        { st with
          stop_signal_called := r.state.stop_signal_called
          segments := st.segments + 1
          trace := st.trace ++ [MainEvent.segment st.rx_freq r] }) := by
    rcases h with h | h <;> simp [after_recv, h]
  rw [e]
  by_cases hf : st.rx_freq = cfg.end_freq <;> simp [notify_and_advance, hf]

/-! ## Drain -/

theorem loop_body_no_drain (env : SegEnv) (N sz spb : Nat) (ls : LoopState)
    (h : ∀ e ∈ ls.trace, is_drain_event e = false) :
    ∀ e ∈ (loop_body env N sz spb ls).state.trace, is_drain_event e = false := by
  cases he : (env.recv ls.calls).error_code with
  | TIMEOUT =>
    rw [loop_body_timeout env N sz spb ls he]
    intro e hm
    simp only [Control.state, List.mem_append, List.mem_singleton] at hm
    rcases hm with (hm | hm) | hm
    · exact h e hm
    · subst hm; rfl
    · subst hm; rfl
  | OVERFLOW =>
    rw [loop_body_overflow env N sz spb ls he]
    intro e hm
    simp only [Control.state, List.mem_append, List.mem_singleton] at hm
    rcases hm with (hm | hm) | hm
    · exact h e hm
    · subst hm; rfl
    · split at hm
      · simp only [List.mem_singleton] at hm; subst hm; rfl
      · simp at hm
  | OTHER code =>
    rw [loop_body_other env N sz spb ls code he]
    intro e hm
    simp only [Control.state, List.mem_append, List.mem_singleton] at hm
    rcases hm with hm | hm
    · exact h e hm
    · subst hm; rfl
  | NONE =>
    rw [loop_body_none env N sz spb ls he]
    intro e hm
    simp only [Control.state, List.mem_append, List.mem_singleton, List.mem_map] at hm
    rcases hm with (hm | hm) | ⟨i, _, hm⟩
    · exact h e hm
    · subst hm; rfl
    · subst hm; rfl

theorem recv_loop_no_drain (env : SegEnv) (N sz spb : Nat) (req : Int) (fuel : Nat)
    (stop0 : Bool) :
    ∀ e ∈ (recv_loop env N sz spb req fuel (recv_prologue N req stop0)).2.trace,
      is_drain_event e = false := by
  apply recv_loop_invariant env N sz spb req (fun ls => ∀ e ∈ ls.trace, is_drain_event e = false)
  · intro ls h; exact h
  · intro ls h _; exact loop_body_no_drain env N sz spb ls h
  · intro e hm
    simp only [recv_prologue, List.mem_append, List.mem_map, List.mem_singleton] at hm
    rcases hm with ⟨i, _, hm⟩ | hm
    · subst hm; rfl
    · subst hm
      unfold start_mode
      split <;> rfl

theorem stop_command_is_drain (e : SegEvent) (h : is_drain_event e = false) :
    is_stop_command e = false := by
  cases e with
  | issue_stream_cmd mode n => cases mode <;> simp_all [is_drain_event, is_stop_command]
  | _ => rfl

theorem mem_contains (tr : List SegEvent) (e : SegEvent) (h : e ∈ tr) :
    tr.contains e = true := by
  simpa using h

/-- C5 (amended): however the segment ends, every per-channel sink is closed
before control leaves `recv_to_file`, and no sink is closed earlier. When the
receive loop ends by its condition (target count reached or stop flag raised)
or by the `break` on timeout, the stream stop command is issued first and then
every sink is closed, channel 0 first. When a call of `recv` reports an error
code other than none, timeout and overflow, `recv_to_file` is left by the
exception of line 84: no stop command is issued, and the sinks are closed by
the destructors of the output files while the stack is unwound. -/
theorem C5_drain_on_return (env : SegEnv) (N sz spb : Nat) (req : Int) (fuel : Nat)
    (stop0 : Bool) :
    ((recv_to_file env N sz spb req fuel stop0).exit = LoopExit.cond_false ∨
        (recv_to_file env N sz spb req fuel stop0).exit = LoopExit.timeout_break →
      (recv_to_file env N sz spb req fuel stop0).state.trace =
        (recv_loop env N sz spb req fuel (recv_prologue N req stop0)).2.trace ++
          [SegEvent.issue_stream_cmd StreamMode.STOP_CONTINUOUS req] ++
          (List.range N).map SegEvent.close) ∧
    (∀ code, (recv_to_file env N sz spb req fuel stop0).exit = LoopExit.thrown code →
      (recv_to_file env N sz spb req fuel stop0).state.trace =
        (recv_loop env N sz spb req fuel (recv_prologue N req stop0)).2.trace ++
          ((List.range N).map SegEvent.destructor_close).reverse ∧
      ∀ e ∈ (recv_to_file env N sz spb req fuel stop0).state.trace,
        is_stop_command e = false) ∧
    (∀ e ∈ (recv_loop env N sz spb req fuel (recv_prologue N req stop0)).2.trace,
      is_drain_event e = false) ∧
    ((recv_to_file env N sz spb req fuel stop0).exit ≠ LoopExit.running →
      ∀ i, i < N →
        sink_closed (recv_to_file env N sz spb req fuel stop0).state.trace i = true) := by
  have hnd := recv_loop_no_drain env N sz spb req fuel stop0
  have ht : (recv_to_file env N sz spb req fuel stop0).state.trace =
      (recv_loop env N sz spb req fuel (recv_prologue N req stop0)).2.trace ++
        exit_events N req (recv_to_file env N sz spb req fuel stop0).exit := rfl
  refine ⟨?_, ?_, hnd, ?_⟩
  · intro h
    rw [ht]
    rcases h with h | h <;> rw [h] <;> simp only [exit_events, List.append_assoc]
  · intro code h
    rw [ht, h]
    refine ⟨rfl, ?_⟩
    intro e he
    simp only [exit_events, List.mem_append, List.mem_reverse, List.mem_map] at he
    rcases he with he | ⟨i, _, he⟩
    · exact stop_command_is_drain e (hnd e he)
    · subst he; rfl
  · intro hrun i hi
    rw [ht]
    unfold sink_closed
    cases hx : (recv_to_file env N sz spb req fuel stop0).exit with
    | running => exact absurd hx hrun
    | cond_false =>
      rw [Bool.or_eq_true]
      left
      apply mem_contains
      simp only [exit_events, List.mem_append, List.mem_map, List.mem_range]
      exact Or.inr (Or.inr ⟨i, hi, rfl⟩)
    | timeout_break =>
      rw [Bool.or_eq_true]
      left
      apply mem_contains
      simp only [exit_events, List.mem_append, List.mem_map, List.mem_range]
      exact Or.inr (Or.inr ⟨i, hi, rfl⟩)
    | thrown code =>
      rw [Bool.or_eq_true]
      right
      apply mem_contains
      simp only [exit_events, List.mem_append, List.mem_reverse, List.mem_map, List.mem_range]
      exact Or.inr ⟨i, hi, rfl⟩

/-- C5 at concrete inputs: a one-channel segment that ends by timeout is
drained by the stop command and the close of line 96; a one-channel segment
whose first call of `recv` reports the error code 2 has its sink closed by the
destructor. -/
theorem C5_witness :
    (recv_to_file env_timeout_second 1 4 500 1000 10 false).state.trace =
      [SegEvent.open_file 0, SegEvent.issue_stream_cmd StreamMode.NUM_SAMPS_AND_DONE 1000,
        SegEvent.recv 0 500, SegEvent.write 0 2000, SegEvent.recv 1 500,
        SegEvent.timeout_msg,
        SegEvent.issue_stream_cmd StreamMode.STOP_CONTINUOUS 1000, SegEvent.close 0] ∧
    sink_closed (recv_to_file env_timeout_second 1 4 500 1000 10 false).state.trace 0 = true ∧
    sink_closed (recv_to_file env_fault_first 1 4 64000 1000 10 false).state.trace 0 = true ∧
    (recv_to_file env_fault_first 1 4 64000 1000 10 false).state.trace =
      [SegEvent.open_file 0, SegEvent.issue_stream_cmd StreamMode.NUM_SAMPS_AND_DONE 1000,
        SegEvent.recv 0 64000, SegEvent.destructor_close 0] := by
  have h2 := (C5_drain_on_return env_timeout_second 1 4 500 1000 10 false).2.2.2
    (by decide) 0 (by decide)
  have h3 := (C5_drain_on_return env_fault_first 1 4 64000 1000 10 false).2.2.2
    (by decide) 0 (by decide)
  exact ⟨by decide, h2, h3, by decide⟩

/-- C5 as stated fails: when the first call of `recv` reports the error code
2, `recv_to_file` is left by the exception right after that call: lines 93-97
are not executed and no stop command is issued; the sink is closed by the
destructor of the output file. -/
theorem C5_counterexample :
    recv_to_file env_fault_first 1 4 64000 1000 10 false =
      { exit := LoopExit.thrown 2
        state :=
          { num_total_samps := 0
            overflow_message := true
            outfiles := [0]
            stop_signal_called := false
            calls := 1
            trace :=
              [SegEvent.open_file 0,
                SegEvent.issue_stream_cmd StreamMode.NUM_SAMPS_AND_DONE 1000,
                SegEvent.recv 0 64000,
                SegEvent.destructor_close 0] } } ∧
    SegEvent.issue_stream_cmd StreamMode.STOP_CONTINUOUS 1000 ∉
      (recv_to_file env_fault_first 1 4 64000 1000 10 false).state.trace := by
  decide

/-! ## The sweep loop -/

theorem sweep_body_returned (env : Env) (cfg : Config) (lfuel sz : Nat) (st : MainState)
    (htype : sizeof_samp_type cfg.type = some sz)
    (h : (sweep_segment env cfg lfuel sz st.segments st.stop_signal_called).exit =
        LoopExit.cond_false ∨
      (sweep_segment env cfg lfuel sz st.segments st.stop_signal_called).exit =
        LoopExit.timeout_break) :
    sweep_body env cfg lfuel st =
      BodyResult.next
        { rx_freq :=
            if st.rx_freq = cfg.end_freq then st.rx_freq
            else env.fadd st.rx_freq cfg.freq_step
          stop_signal_called :=
            if st.rx_freq = cfg.end_freq then true
            else (sweep_segment env cfg lfuel sz st.segments
              st.stop_signal_called).state.stop_signal_called
          segments := st.segments + 1
          trace := st.trace ++
            [MainEvent.segment st.rx_freq
                (sweep_segment env cfg lfuel sz st.segments st.stop_signal_called),
              MainEvent.system_killall 2] ++
            (if st.rx_freq = cfg.end_freq then []
             else retune (env.fadd st.rx_freq cfg.freq_step) cfg.rx_num_channels) } := by
  simp only [sweep_body, htype]
  exact after_recv_returned env cfg st _ h

theorem sweep_body_thrown (env : Env) (cfg : Config) (lfuel sz : Nat) (st : MainState)
    (code : Nat) (htype : sizeof_samp_type cfg.type = some sz)
    (h : (sweep_segment env cfg lfuel sz st.segments st.stop_signal_called).exit =
      LoopExit.thrown code) :
    sweep_body env cfg lfuel st =
      BodyResult.thrown_error_code code
        { rx_freq := st.rx_freq
          stop_signal_called :=
            (sweep_segment env cfg lfuel sz st.segments
              st.stop_signal_called).state.stop_signal_called
          segments := st.segments + 1
          trace := st.trace ++
            [MainEvent.segment st.rx_freq
              (sweep_segment env cfg lfuel sz st.segments st.stop_signal_called)] } := by
  simp only [sweep_body, htype, after_recv, h]

theorem sweep_from_next_stop (env : Env) (cfg : Config) (lfuel n : Nat) (st : MainState)
    (h : (st.stop_signal_called || env.sigint_main st.segments) = true) :
    sweep_from env cfg lfuel n (BodyResult.next st) =
      { exit := MainExit.returned, state := { st with stop_signal_called := true } } := by
  cases n <;> simp only [sweep_from, h, if_true]

theorem sweep_from_next_go (env : Env) (cfg : Config) (lfuel n : Nat) (st : MainState)
    (h : (st.stop_signal_called || env.sigint_main st.segments) = false) :
    sweep_from env cfg lfuel (n + 1) (BodyResult.next st) =
      sweep_from env cfg lfuel n (sweep_body env cfg lfuel st) := by
  simp [sweep_from, h]

theorem sweep_from_next_out_of_fuel (env : Env) (cfg : Config) (lfuel : Nat) (st : MainState)
    (h : (st.stop_signal_called || env.sigint_main st.segments) = false) :
    sweep_from env cfg lfuel 0 (BodyResult.next st) =
      { exit := MainExit.running, state := st } := by
  simp [sweep_from, h]

theorem sweep_visits (env : Env) (cfg : Config) (lfuel sz : Nat) (start : ℚ) (k : Nat)
    (hstep : 0 < cfg.freq_step) (hend : cfg.end_freq = start + k * cfg.freq_step)
    (hexact : ∀ i : Nat, i < k →
      env.fadd (start + i * cfg.freq_step) cfg.freq_step =
        start + ((i + 1 : Nat) : ℚ) * cfg.freq_step)
    (htype : sizeof_samp_type cfg.type = some sz)
    (hseg : ∀ j, j ≤ k →
      ((sweep_segment env cfg lfuel sz j false).exit = LoopExit.cond_false ∨
        (sweep_segment env cfg lfuel sz j false).exit = LoopExit.timeout_break) ∧
      (sweep_segment env cfg lfuel sz j false).state.stop_signal_called = false)
    (hsig : ∀ j, env.sigint_main j = false) :
    ∀ (m j : Nat), j + m = k → ∀ (n : Nat), m ≤ n → ∀ (tr : List MainEvent),
      sweep_from env cfg lfuel n
        (sweep_body env cfg lfuel
          { rx_freq := start + j * cfg.freq_step, stop_signal_called := false,
            segments := j, trace := tr }) =
        { exit := MainExit.returned
          state :=
            { rx_freq := cfg.end_freq
              stop_signal_called := true
              segments := k + 1
              trace := tr ++
                (List.range' j (m + 1)).flatMap (fun i =>
                  [MainEvent.segment (start + i * cfg.freq_step)
                      (sweep_segment env cfg lfuel sz i false),
                    MainEvent.system_killall 2] ++
                  (if i < k then retune (start + (i + 1 : Nat) * cfg.freq_step)
                    cfg.rx_num_channels else [])) } } := by
  intro m
  induction m with
  | zero =>
    intro j hj n _ tr
    have hjk : j = k := by omega
    subst hjk
    obtain ⟨hex, _⟩ := hseg j (Nat.le_refl j)
    rw [sweep_body_returned env cfg lfuel sz _ htype hex]
    rw [sweep_from_next_stop]
    · simp [hend]
    · simp [hend]
  | succ m ih =>
    intro j hj n hn tr
    obtain ⟨n, rfl⟩ : ∃ n2, n = n2 + 1 := ⟨n - 1, by omega⟩
    obtain ⟨hex, hst⟩ := hseg j (by omega)
    have hne : start + (j : ℚ) * cfg.freq_step ≠ cfg.end_freq := by
      rw [hend]
      intro h
      have h2 : (j : ℚ) * cfg.freq_step = (k : ℚ) * cfg.freq_step := by linarith
      have h3 : (j : ℚ) = (k : ℚ) := mul_right_cancel₀ (ne_of_gt hstep) h2
      have h4 : j = k := by exact_mod_cast h3
      omega
    have hlt : j < k := by omega
    rw [sweep_body_returned env cfg lfuel sz _ htype hex]
    simp only [hne, if_false, hst, hexact j hlt]
    rw [sweep_from_next_go _ _ _ _ _ (by simp [hsig])]
    rw [ih (j + 1) (by omega) n (by omega)]
    simp [List.range'_succ, hlt, List.append_assoc]

theorem loop_body_stop (env : SegEnv) (N sz spb : Nat) (ls : LoopState) :
    (loop_body env N sz spb ls).state.stop_signal_called = ls.stop_signal_called := by
  cases he : (env.recv ls.calls).error_code with
  | TIMEOUT => rw [loop_body_timeout env N sz spb ls he]; rfl
  | OVERFLOW => rw [loop_body_overflow env N sz spb ls he]; rfl
  | OTHER code => rw [loop_body_other env N sz spb ls code he]; rfl
  | NONE => rw [loop_body_none env N sz spb ls he]; rfl

theorem recv_to_file_stop_false (env : SegEnv) (N sz spb : Nat) (req : Int) (fuel : Nat)
    (hsig : ∀ k, env.sigint k = false) :
    (recv_to_file env N sz spb req fuel false).state.stop_signal_called = false := by
  have h := recv_loop_invariant env N sz spb req (fun ls => ls.stop_signal_called = false)
    (fun ls h => by simp [poll_stop, h, hsig])
    (fun ls h _ => (loop_body_stop env N sz spb ls).trans h) fuel (recv_prologue N req false) rfl
  obtain ⟨_, _, _, _, _, h6⟩ := recv_epilogue_fields N req
    (recv_loop env N sz spb req fuel (recv_prologue N req false))
  simpa only [recv_to_file, recv_to_file_from, h6] using h

theorem recv_loop_thrown (env : SegEnv) (N sz spb : Nat) (req : Int) (code : Nat) :
    ∀ (fuel : Nat) (ls : LoopState),
      (recv_loop env N sz spb req fuel ls).1 = LoopExit.thrown code →
      ∃ k, (env.recv k).error_code = ErrorCode.OTHER code := by
  intro fuel
  induction fuel with
  | zero =>
    intro ls h
    simp only [recv_loop] at h
    split at h <;> simp at h
  | succ fuel ih =>
    intro ls h
    simp only [recv_loop] at h
    split at h
    · cases he : (env.recv (poll_stop env ls).calls).error_code with
      | TIMEOUT => rw [loop_body_timeout env N sz spb _ he] at h; simp at h
      | OVERFLOW => rw [loop_body_overflow env N sz spb _ he] at h; exact ih _ h
      | NONE => rw [loop_body_none env N sz spb _ he] at h; exact ih _ h
      | OTHER c =>
        rw [loop_body_other env N sz spb _ c he] at h
        simp only [LoopExit.thrown.injEq] at h
        exact ⟨_, h ▸ he⟩
    · simp at h

theorem recv_to_file_thrown (env : SegEnv) (N sz spb : Nat) (req : Int) (fuel : Nat)
    (stop0 : Bool) (code : Nat)
    (h : (recv_to_file env N sz spb req fuel stop0).exit = LoopExit.thrown code) :
    ∃ k, (env.recv k).error_code = ErrorCode.OTHER code := by
  obtain ⟨h1, _⟩ := recv_epilogue_fields N req
    (recv_loop env N sz spb req fuel (recv_prologue N req stop0))
  simp only [recv_to_file, recv_to_file_from, h1] at h
  exact recv_loop_thrown env N sz spb req code fuel _ h

theorem sweep_segment_returned (env : Env) (cfg : Config) (lfuel sz j : Nat)
    (hsig : ∀ i, (env.seg j).sigint i = false)
    (hfault : ∀ i code, ((env.seg j).recv i).error_code ≠ ErrorCode.OTHER code)
    (hend : (sweep_segment env cfg lfuel sz j false).exit ≠ LoopExit.running) :
    ((sweep_segment env cfg lfuel sz j false).exit = LoopExit.cond_false ∨
      (sweep_segment env cfg lfuel sz j false).exit = LoopExit.timeout_break) ∧
    (sweep_segment env cfg lfuel sz j false).state.stop_signal_called = false := by
  refine ⟨?_, recv_to_file_stop_false _ _ _ _ _ _ hsig⟩
  cases he : (sweep_segment env cfg lfuel sz j false).exit with
  | cond_false => exact Or.inl rfl
  | timeout_break => exact Or.inr rfl
  | running => exact absurd he hend
  | thrown code =>
    obtain ⟨i, hi⟩ := recv_to_file_thrown _ _ _ _ _ _ _ code he
    exact absurd hi (hfault i code)

/-! ## Claims about the sweep loop -/

theorem recv_loop_cond_false (env : SegEnv) (N sz spb : Nat) (req : Int) (fuel : Nat)
    (ls : LoopState) (hc : loop_cond req (poll_stop env ls) = false) :
    recv_loop env N sz spb req fuel ls = (LoopExit.cond_false, poll_stop env ls) := by
  cases fuel <;> simp only [recv_loop, hc] <;> rfl

theorem recv_loop_continuous_runs (env : SegEnv) (N sz spb : Nat)
    (hnone : ∀ k, (env.recv k).error_code = ErrorCode.NONE)
    (hsig : ∀ k, env.sigint k = false) :
    ∀ (fuel : Nat) (ls : LoopState), ls.stop_signal_called = false →
      (recv_loop env N sz spb 0 fuel ls).1 = LoopExit.running := by
  intro fuel
  induction fuel with
  | zero =>
    intro ls hs
    have hp : poll_stop env ls = ls := by
      cases ls; simp_all [poll_stop]
    have hc : loop_cond 0 ls = true := by simp [loop_cond, hs]
    simp only [recv_loop, hp, hc, if_true]
  | succ fuel ih =>
    intro ls hs
    have hp : poll_stop env ls = ls := by
      cases ls; simp_all [poll_stop]
    have hc : loop_cond 0 ls = true := by simp [loop_cond, hs]
    simp only [recv_loop, hp, hc, if_true]
    rw [loop_body_none env N sz spb ls (hnone _)]
    exact ih _ hs

theorem sweep_from_running (env : Env) (cfg : Config) (lfuel n : Nat) (st : MainState) :
    sweep_from env cfg lfuel n (BodyResult.running st) =
      { exit := MainExit.running, state := st } := by
  cases n <;> rfl

/-- C4: an iteration whose call of `recv` reports a timeout leaves the receive
loop at once: the sinks and `num_total_samps` are as before the call, no
further call of `recv` is issued in the segment, and `recv_to_file` returns
through the stop command and the close loop. The sweep loop of `main` then
goes on as after a completed segment: the body signals the peer and, when
`rx_freq` is not `end_freq`, advances `rx_freq` by `freq_step` and retunes
every channel; the `while` test follows, and unless the stop flag is up the
next segment starts from that state. -/
theorem C4_timeout_handling (env : SegEnv) (N spb : Nat) (req : Int) (fuel : Nat)
    (stop0 : Bool) (menv : Env) (cfg : Config) (lfuel sz : Nat) (st : MainState) :
    (∀ ls : LoopState, loop_cond req (poll_stop env ls) = true →
      (env.recv ls.calls).error_code = ErrorCode.TIMEOUT →
      recv_to_file_from env N sz spb req (fuel + 1) ls =
        { exit := LoopExit.timeout_break
          state :=
            { num_total_samps := ls.num_total_samps
              overflow_message := ls.overflow_message
              outfiles := ls.outfiles
              stop_signal_called := false
              calls := ls.calls + 1
              trace := ls.trace ++
                [SegEvent.recv ls.calls spb, SegEvent.timeout_msg,
                  SegEvent.issue_stream_cmd StreamMode.STOP_CONTINUOUS req] ++
                (List.range N).map SegEvent.close } }) ∧
    (∀ k, (env.recv k).error_code = ErrorCode.TIMEOUT →
      (recv_to_file env N sz spb req fuel stop0).state.calls ≤ k + 1 ∧
      ((recv_to_file env N sz spb req fuel stop0).state.calls = k + 1 →
        (recv_to_file env N sz spb req fuel stop0).exit = LoopExit.timeout_break)) ∧
    (sizeof_samp_type cfg.type = some sz →
      (sweep_segment menv cfg lfuel sz st.segments st.stop_signal_called).exit =
        LoopExit.timeout_break →
      sweep_body menv cfg lfuel st =
        BodyResult.next
          { rx_freq :=
              if st.rx_freq = cfg.end_freq then st.rx_freq
              else menv.fadd st.rx_freq cfg.freq_step
            stop_signal_called :=
              if st.rx_freq = cfg.end_freq then true
              else (sweep_segment menv cfg lfuel sz st.segments
                st.stop_signal_called).state.stop_signal_called
            segments := st.segments + 1
            trace := st.trace ++
              [MainEvent.segment st.rx_freq
                  (sweep_segment menv cfg lfuel sz st.segments st.stop_signal_called),
                MainEvent.system_killall 2] ++
              (if st.rx_freq = cfg.end_freq then []
               else retune (menv.fadd st.rx_freq cfg.freq_step) cfg.rx_num_channels) } ∧
      (st.rx_freq ≠ cfg.end_freq →
        (sweep_segment menv cfg lfuel sz st.segments
          st.stop_signal_called).state.stop_signal_called = false →
        menv.sigint_main (st.segments + 1) = false →
        ∀ n, sweep_from menv cfg lfuel (n + 1) (sweep_body menv cfg lfuel st) =
          sweep_from menv cfg lfuel n
            (sweep_body menv cfg lfuel
              { rx_freq := menv.fadd st.rx_freq cfg.freq_step
                stop_signal_called := false
                segments := st.segments + 1
                trace := st.trace ++
                  [MainEvent.segment st.rx_freq
                      (sweep_segment menv cfg lfuel sz st.segments st.stop_signal_called),
                    MainEvent.system_killall 2] ++
                  retune (menv.fadd st.rx_freq cfg.freq_step) cfg.rx_num_channels })) ∧
      (st.rx_freq = cfg.end_freq →
        ∀ n, sweep_from menv cfg lfuel n (sweep_body menv cfg lfuel st) =
          { exit := MainExit.returned
            state :=
              { rx_freq := st.rx_freq
                stop_signal_called := true
                segments := st.segments + 1
                trace := st.trace ++
                  [MainEvent.segment st.rx_freq
                      (sweep_segment menv cfg lfuel sz st.segments st.stop_signal_called),
                    MainEvent.system_killall 2] } })) ∧
    (sizeof_samp_type cfg.type = some sz →
      ∀ (start : ℚ) (n : Nat),
        (sweep_segment menv cfg lfuel sz 0 stop0).exit = LoopExit.timeout_break →
        UHD_SAFE_MAIN menv cfg lfuel n start stop0 =
          sweep_from menv cfg lfuel n
            (BodyResult.next
              { rx_freq :=
                  if start = cfg.end_freq then start else menv.fadd start cfg.freq_step
                stop_signal_called :=
                  if start = cfg.end_freq then true
                  else (sweep_segment menv cfg lfuel sz 0 stop0).state.stop_signal_called
                segments := 1
                trace :=
                  [MainEvent.segment start (sweep_segment menv cfg lfuel sz 0 stop0),
                    MainEvent.system_killall 2] ++
                  (if start = cfg.end_freq then []
                   else retune (menv.fadd start cfg.freq_step) cfg.rx_num_channels) })) := by
  refine ⟨?_, ?_, ?_, ?_⟩
  · intro ls hc he
    have hs : (poll_stop env ls).stop_signal_called = false := by
      simp only [loop_cond, Bool.and_eq_true, Bool.not_eq_true'] at hc
      exact hc.1
    have he2 : (env.recv (poll_stop env ls).calls).error_code = ErrorCode.TIMEOUT := he
    simp only [recv_to_file_from, recv_loop, hc, if_true, loop_body_timeout env N sz spb _ he2,
      recv_epilogue, exit_events]
    simp only [hs, List.append_assoc, List.cons_append, List.nil_append]
    rfl
  · intro k hk
    have h := recv_loop_stops_at_timeout env N sz spb req k hk fuel (recv_prologue N req stop0)
      (Nat.zero_le k)
    obtain ⟨h1, _, _, _, h5, _⟩ := recv_epilogue_fields N req
      (recv_loop env N sz spb req fuel (recv_prologue N req stop0))
    simpa only [recv_to_file, recv_to_file_from, h1, h5] using h
  · intro htype hexit
    have hb := sweep_body_returned menv cfg lfuel sz st htype (Or.inr hexit)
    refine ⟨hb, ?_, ?_⟩
    · intro hne hstop hsig n
      rw [hb]
      simp only [hne, if_false, hstop]
      rw [sweep_from_next_go _ _ _ _ _ (by simp [hsig])]
    · intro heq n
      rw [hb]
      simp only [heq, if_true, List.append_nil]
      rw [sweep_from_next_stop _ _ _ _ _ (by simp)]
  · intro htype start n hexit
    have hb := sweep_body_returned menv cfg lfuel sz (sweep_init start stop0) htype
      (Or.inr hexit)
    simp only [UHD_SAFE_MAIN, hb]
    simp [sweep_init]

/-- C4 at a concrete input: a sweep from 100 MHz to 110 MHz in steps of 5 MHz
in which every segment ends by a timeout after one transfer of 500 samples.
Each timeout ends its segment with 500 samples per channel; the peer is
signalled after every segment and the sweep advances to 105 MHz and 110 MHz. -/
theorem C4_witness :
    (recv_to_file env_timeout_second 1 4 500 1000 10 false).state.calls ≤ 1 + 1 ∧
    (recv_to_file env_timeout_second 1 4 500 1000 10 false).exit = LoopExit.timeout_break ∧
    (recv_to_file env_timeout_second 1 4 500 1000 10 false).state.num_total_samps = 500 ∧
    (recv_to_file env_timeout_second 1 4 500 1000 10 false).state.outfiles = [2000] ∧
    sweep_body env_timeout_sweep cfg_sweep 2 (sweep_init 100000000 false) =
      BodyResult.next
        { rx_freq := 105000000
          stop_signal_called := false
          segments := 1
          trace :=
            [MainEvent.segment 100000000 (sweep_segment env_timeout_sweep cfg_sweep 2 4 0 false),
              MainEvent.system_killall 2, MainEvent.set_rx_freq 105000000 0] } ∧
    UHD_SAFE_MAIN env_timeout_sweep cfg_sweep 2 2 100000000 false =
      { exit := MainExit.returned
        state :=
          { rx_freq := 110000000
            stop_signal_called := true
            segments := 3
            trace :=
              [MainEvent.segment 100000000 (sweep_segment env_timeout_sweep cfg_sweep 2 4 0 false),
                MainEvent.system_killall 2,
                MainEvent.set_rx_freq 105000000 0,
                MainEvent.segment 105000000 (sweep_segment env_timeout_sweep cfg_sweep 2 4 1 false),
                MainEvent.system_killall 2,
                MainEvent.set_rx_freq 110000000 0,
                MainEvent.segment 110000000 (sweep_segment env_timeout_sweep cfg_sweep 2 4 2 false),
                MainEvent.system_killall 2] } } := by
  have h := C4_timeout_handling env_timeout_second 1 500 1000 10 false env_timeout_sweep
    cfg_sweep 2 4 (sweep_init 100000000 false)
  have hexit : (recv_to_file env_timeout_second 1 4 500 1000 10 false).exit =
      LoopExit.timeout_break := (h.2.1 1 (by decide)).2 (by decide)
  have hseg : (sweep_segment env_timeout_sweep cfg_sweep 2 4
      (sweep_init 100000000 false).segments
      (sweep_init 100000000 false).stop_signal_called).exit = LoopExit.timeout_break := by
    decide
  refine ⟨(h.2.1 1 (by decide)).1, hexit, by decide, by decide, ?_, ?_⟩
  · rw [(h.2.2.1 (by decide) hseg).1]
    decide!
  · rw [h.2.2.2 (by decide) 100000000 2 (by decide)]
    decide!

/-- C6 (amended): in every iteration of the sweep loop whose call of
`recv_to_file` returns (the receive loop ended by its condition, target reached
or stop flag raised, or by the `break` on timeout), the `killall -2` command is
issued exactly once, right after the segment and before any retune and before
the `while` test. When the call is left by the exception for another error
code, the exception leaves the sweep loop as well and no command is issued for
that segment. -/
theorem C6_peer_notification (env : Env) (cfg : Config) (lfuel sz : Nat) (st : MainState)
    (htype : sizeof_samp_type cfg.type = some sz) :
    ((sweep_segment env cfg lfuel sz st.segments st.stop_signal_called).exit =
          LoopExit.cond_false ∨
        (sweep_segment env cfg lfuel sz st.segments st.stop_signal_called).exit =
          LoopExit.timeout_break →
      sweep_body env cfg lfuel st =
        BodyResult.next
          { rx_freq :=
              if st.rx_freq = cfg.end_freq then st.rx_freq
              else env.fadd st.rx_freq cfg.freq_step
            stop_signal_called :=
              if st.rx_freq = cfg.end_freq then true
              else (sweep_segment env cfg lfuel sz st.segments
                st.stop_signal_called).state.stop_signal_called
            segments := st.segments + 1
            trace := st.trace ++
              [MainEvent.segment st.rx_freq
                  (sweep_segment env cfg lfuel sz st.segments st.stop_signal_called),
                MainEvent.system_killall 2] ++
              (if st.rx_freq = cfg.end_freq then []
               else retune (env.fadd st.rx_freq cfg.freq_step) cfg.rx_num_channels) }) ∧
    (∀ code,
      (sweep_segment env cfg lfuel sz st.segments st.stop_signal_called).exit =
        LoopExit.thrown code →
      ∀ n, sweep_from env cfg lfuel n (sweep_body env cfg lfuel st) =
        { exit := MainExit.thrown_error_code code
          state :=
            { rx_freq := st.rx_freq
              stop_signal_called :=
                (sweep_segment env cfg lfuel sz st.segments
                  st.stop_signal_called).state.stop_signal_called
              segments := st.segments + 1
              trace := st.trace ++
                [MainEvent.segment st.rx_freq
                  (sweep_segment env cfg lfuel sz st.segments st.stop_signal_called)] } }) := by
  refine ⟨sweep_body_returned env cfg lfuel sz st htype, ?_⟩
  intro code h n
  rw [sweep_body_thrown env cfg lfuel sz st code htype h]
  cases n <;> rfl

/-- C6 at a concrete input: the first iteration of a sweep from 100 MHz. -/
theorem C6_witness :
    sweep_body env_steady_sweep cfg_sweep 2 (sweep_init 100000000 false) =
      BodyResult.next
        { rx_freq := 105000000
          stop_signal_called := false
          segments := 1
          trace :=
            [MainEvent.segment 100000000 (sweep_segment env_steady_sweep cfg_sweep 2 4 0 false),
              MainEvent.system_killall 2, MainEvent.set_rx_freq 105000000 0] } := by
  rw [(C6_peer_notification env_steady_sweep cfg_sweep 2 4 (sweep_init 100000000 false)
    (by decide)).1 (Or.inl (by decide))]
  decide!

/-- C6 as stated fails: when the first call of `recv` of the first segment
reports the error code 2, the sweep is left by the exception and no
`killall -2` command is issued. -/
theorem C6_counterexample :
    UHD_SAFE_MAIN env_faulted_sweep cfg_sweep 2 2 100000000 false =
      { exit := MainExit.thrown_error_code 2
        state :=
          { rx_freq := 100000000
            stop_signal_called := false
            segments := 1
            trace :=
              [MainEvent.segment 100000000
                (sweep_segment env_faulted_sweep cfg_sweep 2 4 0 false)] } } ∧
    (sweep_segment env_faulted_sweep cfg_sweep 2 4 0 false).exit = LoopExit.thrown 2 ∧
    MainEvent.system_killall 2 ∉
      (UHD_SAFE_MAIN env_faulted_sweep cfg_sweep 2 2 100000000 false).state.trace := by
  decide!

theorem recv_loop_running_calls (env : SegEnv) (N sz spb : Nat) (req : Int) :
    ∀ (fuel : Nat) (ls : LoopState),
      (recv_loop env N sz spb req fuel ls).1 = LoopExit.running →
      (recv_loop env N sz spb req fuel ls).2.calls = ls.calls + fuel := by
  intro fuel
  induction fuel with
  | zero =>
    intro ls h
    simp only [recv_loop] at h ⊢
    split <;> rfl
  | succ fuel ih =>
    intro ls h
    simp only [recv_loop] at h ⊢
    split at h
    · next hc =>
      simp only [hc, if_true]
      have hcalls := loop_body_calls env N sz spb (poll_stop env ls)
      cases hb : loop_body env N sz spb (poll_stop env ls) with
      | continue_ ls2 =>
        rw [hb] at h hcalls
        simp only at h ⊢
        rw [ih ls2 h]
        simp only [Control.state] at hcalls
        rw [hcalls]
        simp only [poll_stop]
        omega
      | break_ ls2 => rw [hb] at h; simp at h
      | throw_ code ls2 => rw [hb] at h; simp at h
    · simp at h

/-- A segment in which some call of `recv` within the fuel reports a timeout
ends. -/
theorem sweep_segment_ends_of_timeout (env : Env) (cfg : Config) (lfuel sz j : Nat)
    (stop : Bool) (i : Nat) (hi : i < lfuel)
    (ht : ((env.seg j).recv i).error_code = ErrorCode.TIMEOUT) :
    (sweep_segment env cfg lfuel sz j stop).exit ≠ LoopExit.running := by
  intro hrun
  have h := recv_loop_stops_at_timeout (env.seg j) cfg.rx_num_channels sz cfg.spb
    (toInt32 (cfg.total_num_samps : Int)) i ht lfuel
    (recv_prologue cfg.rx_num_channels (toInt32 (cfg.total_num_samps : Int)) stop)
    (Nat.zero_le i)
  have hrun2 : (recv_loop (env.seg j) cfg.rx_num_channels sz cfg.spb
      (toInt32 (cfg.total_num_samps : Int)) lfuel
      (recv_prologue cfg.rx_num_channels (toInt32 (cfg.total_num_samps : Int)) stop)).1 =
      LoopExit.running := hrun
  have hc := recv_loop_running_calls (env.seg j) cfg.rx_num_channels sz cfg.spb
    (toInt32 (cfg.total_num_samps : Int)) lfuel _ hrun2
  have h0 : (recv_prologue cfg.rx_num_channels (toInt32 (cfg.total_num_samps : Int))
      stop).calls = 0 := rfl
  rw [h0, Nat.zero_add] at hc
  have h1 := h.1
  have h2 := h.2 (by omega)
  rw [hrun2] at h2
  cases h2

/-- A segment in bounded mode whose calls of `recv` all deliver between 1 and
`spb` samples without fault, with no SIGINT, ends within as many iterations as
samples are requested. -/
theorem sweep_segment_ends_of_bounded (env : Env) (cfg : Config) (lfuel sz j : Nat)
    (hreq : 0 < toInt32 (cfg.total_num_samps : Int))
    (hmax : toInt32 (cfg.total_num_samps : Int) + cfg.spb - 1 ≤ 2 ^ 31 - 1)
    (hrecv : ∀ i, ((env.seg j).recv i).error_code = ErrorCode.NONE ∧
      1 ≤ ((env.seg j).recv i).num_rx_samps ∧ ((env.seg j).recv i).num_rx_samps ≤ cfg.spb)
    (hsig : ∀ i, (env.seg j).sigint i = false)
    (hfuel : toInt32 (cfg.total_num_samps : Int) ≤ lfuel) :
    (sweep_segment env cfg lfuel sz j false).exit ≠ LoopExit.running := by
  have h := recv_loop_bounded (env.seg j) cfg.rx_num_channels sz cfg.spb
    (toInt32 (cfg.total_num_samps : Int)) hreq hmax hrecv hsig lfuel
    (recv_prologue cfg.rx_num_channels (toInt32 (cfg.total_num_samps : Int)) false) rfl
    (by simp [recv_prologue]) (by simp [recv_prologue]; omega)
    (by simp [recv_prologue]; omega) (by simp [recv_prologue])
  have he : (sweep_segment env cfg lfuel sz j false).exit = LoopExit.cond_false := h.1
  rw [he]
  simp

/-- C7 (amended): for a step `0 < freq_step` and `end_freq = start + k * freq_step`
with `k` a natural number, where each of the `k` additions `rx_freq += freq_step`
is exact on the machine, when SIGINT never arrives, no call of `recv` reports
an error code other than none, timeout and overflow, and the receive loop of
each of the first `k + 1` segments ends, the sweep loop runs exactly `k + 1`
segments, at `start`, `start + freq_step`, ..., `end_freq` in that order, each
followed by the peer command and, except for the last, by the retune to the
next frequency; then `main` returns, with no retune past `end_freq`. -/
theorem C7_sweep_visit_sequence (env : Env) (cfg : Config) (lfuel sz : Nat) (start : ℚ)
    (k n : Nat)
    (hstep : 0 < cfg.freq_step) (hend : cfg.end_freq = start + k * cfg.freq_step)
    (hexact : ∀ i : Nat, i < k →
      env.fadd (start + i * cfg.freq_step) cfg.freq_step =
        start + ((i + 1 : Nat) : ℚ) * cfg.freq_step)
    (htype : sizeof_samp_type cfg.type = some sz)
    (hsig : ∀ j i, (env.seg j).sigint i = false) (hsigm : ∀ j, env.sigint_main j = false)
    (hfault : ∀ j i code, ((env.seg j).recv i).error_code ≠ ErrorCode.OTHER code)
    (hends : ∀ j, j ≤ k → (sweep_segment env cfg lfuel sz j false).exit ≠ LoopExit.running)
    (hn : k ≤ n) :
    UHD_SAFE_MAIN env cfg lfuel n start false =
      { exit := MainExit.returned
        state :=
          { rx_freq := cfg.end_freq
            stop_signal_called := true
            segments := k + 1
            trace :=
              (List.range (k + 1)).flatMap (fun i =>
                [MainEvent.segment (start + i * cfg.freq_step)
                    (sweep_segment env cfg lfuel sz i false),
                  MainEvent.system_killall 2] ++
                (if i < k then retune (start + (i + 1 : Nat) * cfg.freq_step)
                  cfg.rx_num_channels else [])) } } := by
  have h := sweep_visits env cfg lfuel sz start k hstep hend hexact htype
    (fun j hj => sweep_segment_returned env cfg lfuel sz j (hsig j) (hfault j) (hends j hj))
    hsigm k 0 (by omega) n hn []
  simp only [Nat.cast_zero, zero_mul, add_zero, List.nil_append] at h
  rw [List.range_eq_range']
  exact h

/-- C7 at the scenario of the specification, with binary64 doubles:
`start = 100e6`, `end = 110e6`, `step = 5e6` visits exactly 100e6, 105e6 and
110e6, each segment collecting its 1000 samples; in continuous mode the same
three frequencies are visited when every segment ends by a timeout. -/
theorem C7_witness :
    UHD_SAFE_MAIN env_steady_sweep cfg_sweep 1000 2 100000000 false =
      { exit := MainExit.returned
        state :=
          { rx_freq := 110000000
            stop_signal_called := true
            segments := 3
            trace :=
              [MainEvent.segment 100000000 (sweep_segment env_steady_sweep cfg_sweep 1000 4 0 false),
                MainEvent.system_killall 2,
                MainEvent.set_rx_freq 105000000 0,
                MainEvent.segment 105000000 (sweep_segment env_steady_sweep cfg_sweep 1000 4 1 false),
                MainEvent.system_killall 2,
                MainEvent.set_rx_freq 110000000 0,
                MainEvent.segment 110000000 (sweep_segment env_steady_sweep cfg_sweep 1000 4 2 false),
                MainEvent.system_killall 2] } } ∧
    (sweep_segment env_steady_sweep cfg_sweep 1000 4 0 false).state.num_total_samps = 1000 ∧
    (UHD_SAFE_MAIN env_steady_sweep cfg_sweep 1000 2 100000000 false).state.segments = 3 ∧
    (UHD_SAFE_MAIN env_timeout_sweep cfg_continuous 2 2 100000000 false).exit =
      MainExit.returned ∧
    (UHD_SAFE_MAIN env_timeout_sweep cfg_continuous 2 2 100000000 false).state.segments = 3 := by
  have h1 := C7_sweep_visit_sequence env_steady_sweep cfg_sweep 1000 4 100000000 2 2 (by decide!)
    (by decide!)
    (fun i hi => by
      interval_cases i <;> decide!)
    (by decide) (fun _ _ => rfl) (fun _ => rfl)
    (fun _ _ _ => by simp [env_steady_sweep, env_steady])
    (fun j _ => sweep_segment_ends_of_bounded env_steady_sweep cfg_sweep 1000 4 j (by decide)
      (by decide) (fun _ => by simp [env_steady_sweep, env_steady, cfg_sweep]) (fun _ => rfl)
      (by decide))
    (Nat.le_refl 2)
  have h2 := C7_sweep_visit_sequence env_timeout_sweep cfg_continuous 2 4 100000000 2 2
    (by decide!) (by decide!)
    (fun i hi => by
      interval_cases i <;> decide!)
    (by decide) (fun _ _ => rfl) (fun _ => rfl)
    (fun _ i _ => by
      by_cases hi : i = 0 <;> simp [env_timeout_sweep, env_timeout_second, hi])
    (fun j _ => sweep_segment_ends_of_timeout env_timeout_sweep cfg_continuous 2 4 j false 1
      (by decide) rfl)
    (Nat.le_refl 2)
  refine ⟨?_, by decide, by decide!, ?_, ?_⟩
  · rw [h1]
    decide!
  · rw [h2]
  · rw [h2]

/-- C7 as stated fails: with `--nsamps 0` (continuous mode), a device that
delivers 500 samples on every call without fault and no SIGINT, the receive
loop of the first segment never ends. After 50 calls of `recv` the sweep from
100e6 to 110e6 in steps of 5e6 is still in its first segment, and so it is
whatever the fuel. -/
theorem C7_counterexample :
    ((UHD_SAFE_MAIN env_steady_sweep cfg_continuous 50 2 100000000 false).exit =
        MainExit.running ∧
      (UHD_SAFE_MAIN env_steady_sweep cfg_continuous 50 2 100000000 false).state.segments = 1 ∧
      (sweep_segment env_steady_sweep cfg_continuous 50 4 0 false).state.calls = 50) ∧
    ∀ lfuel n : Nat,
      UHD_SAFE_MAIN env_steady_sweep cfg_continuous lfuel n 100000000 false =
        { exit := MainExit.running
          state :=
            { rx_freq := 100000000
              stop_signal_called := false
              segments := 1
              trace :=
                [MainEvent.segment 100000000
                  (sweep_segment env_steady_sweep cfg_continuous lfuel 4 0 false)] } } := by
  refine ⟨by decide!, ?_⟩
  intro lfuel n
  have hrun : (sweep_segment env_steady_sweep cfg_continuous lfuel 4 0 false).exit =
      LoopExit.running := by
    have h := recv_loop_continuous_runs env_steady 1 4 500 (fun _ => rfl) (fun _ => rfl) lfuel
      (recv_prologue 1 0 false) rfl
    exact h
  have hstop : (sweep_segment env_steady_sweep cfg_continuous lfuel 4 0 false).state.stop_signal_called
      = false := recv_to_file_stop_false env_steady 1 4 500 0 lfuel (fun _ => rfl)
  have htype : sizeof_samp_type cfg_continuous.type = some 4 := by decide
  simp only [UHD_SAFE_MAIN, sweep_body, htype, after_recv, sweep_init, hrun, hstop]
  rw [sweep_from_running]
  simp

/-- C8 (amended): for `0 < freq_step` and `end_freq = start + k * freq_step`
with `k` a natural number (the step divides the span exactly), where each of
the `k` additions `rx_freq += freq_step` is exact on the machine, when SIGINT
never arrives, no call of `recv` reports an error code other than none,
timeout and overflow, and the receive loop of each of the first `k + 1`
segments ends, the sweep loop reaches its terminal state after `k + 1`
segments, which is at most `ceil((end_freq - start) / freq_step) + 1`. -/
theorem C8_sweep_segment_bound (env : Env) (cfg : Config) (lfuel sz : Nat) (start : ℚ)
    (k n : Nat)
    (hstep : 0 < cfg.freq_step) (hend : cfg.end_freq = start + k * cfg.freq_step)
    (hexact : ∀ i : Nat, i < k →
      env.fadd (start + i * cfg.freq_step) cfg.freq_step =
        start + ((i + 1 : Nat) : ℚ) * cfg.freq_step)
    (htype : sizeof_samp_type cfg.type = some sz)
    (hsig : ∀ j i, (env.seg j).sigint i = false) (hsigm : ∀ j, env.sigint_main j = false)
    (hfault : ∀ j i code, ((env.seg j).recv i).error_code ≠ ErrorCode.OTHER code)
    (hends : ∀ j, j ≤ k → (sweep_segment env cfg lfuel sz j false).exit ≠ LoopExit.running)
    (hn : k ≤ n) :
    (UHD_SAFE_MAIN env cfg lfuel n start false).exit = MainExit.returned ∧
    (UHD_SAFE_MAIN env cfg lfuel n start false).state.segments = k + 1 ∧
    (UHD_SAFE_MAIN env cfg lfuel n start false).state.segments ≤
      ⌈(cfg.end_freq - start) / cfg.freq_step⌉₊ + 1 := by
  have h := sweep_visits env cfg lfuel sz start k hstep hend hexact htype
    (fun j hj => sweep_segment_returned env cfg lfuel sz j (hsig j) (hfault j) (hends j hj))
    hsigm k 0 (by omega) n hn []
  simp only [Nat.cast_zero, zero_mul, add_zero, List.nil_append] at h
  have hc : ⌈(cfg.end_freq - start) / cfg.freq_step⌉₊ = k := by
    rw [hend, add_sub_cancel_left, mul_div_assoc, div_self (ne_of_gt hstep), mul_one,
      Nat.ceil_natCast]
  simp only [UHD_SAFE_MAIN, sweep_init, h, hc]
  exact ⟨trivial, trivial, Nat.le_refl _⟩

/-- C8 at a concrete input, with binary64 doubles: `start = 100e6`,
`end = 110e6`, `step = 5e6` ends after 3 segments. -/
theorem C8_witness :
    ((UHD_SAFE_MAIN env_steady_sweep cfg_sweep 2 2 100000000 false).exit = MainExit.returned ∧
      (UHD_SAFE_MAIN env_steady_sweep cfg_sweep 2 2 100000000 false).state.segments = 2 + 1 ∧
      (UHD_SAFE_MAIN env_steady_sweep cfg_sweep 2 2 100000000 false).state.segments ≤
        ⌈(cfg_sweep.end_freq - 100000000) / cfg_sweep.freq_step⌉₊ + 1) ∧
    (UHD_SAFE_MAIN env_steady_sweep cfg_sweep 2 2 100000000 false).state.rx_freq =
      110000000 :=
  ⟨C8_sweep_segment_bound env_steady_sweep cfg_sweep 2 4 100000000 2 2 (by decide!)
      (by decide!)
      (fun i hi => by
        interval_cases i <;> decide!)
      (by decide) (fun _ _ => rfl) (fun _ => rfl)
      (fun _ _ _ => by simp [env_steady_sweep, env_steady])
      (fun j _ => by
        have h : sweep_segment env_steady_sweep cfg_sweep 2 4 j false =
            sweep_segment env_steady_sweep cfg_sweep 2 4 0 false := by
          unfold sweep_segment; rfl
        rw [h]; decide)
      (Nat.le_refl 2),
    by decide!⟩

/-- C8 as stated fails in two ways. With `start = 100e6`, `end = 110e6`,
`step = 4e6` the bound is 4 segments, yet after 5 segments the loop is still
running: `rx_freq` has stepped from 108e6 to 112e6 and on to 120e6 without
ever being equal to `end_freq`. With `step = 5e6` and `--nsamps 0` the receive
loop of the first segment never ends, so the sweep loop never reaches its
terminal state, whatever the fuel. -/
theorem C8_counterexample :
    (⌈((110000000 : ℚ) - 100000000) / 4000000⌉₊ + 1 = 4 ∧
      UHD_SAFE_MAIN env_steady_sweep cfg_uneven 2 4 100000000 false =
        { exit := MainExit.running
          state :=
            { rx_freq := 120000000
              stop_signal_called := false
              segments := 5
              trace :=
                [MainEvent.segment 100000000 (sweep_segment env_steady_sweep cfg_uneven 2 4 0 false),
                  MainEvent.system_killall 2,
                  MainEvent.set_rx_freq 104000000 0,
                  MainEvent.segment 104000000 (sweep_segment env_steady_sweep cfg_uneven 2 4 1 false),
                  MainEvent.system_killall 2,
                  MainEvent.set_rx_freq 108000000 0,
                  MainEvent.segment 108000000 (sweep_segment env_steady_sweep cfg_uneven 2 4 2 false),
                  MainEvent.system_killall 2,
                  MainEvent.set_rx_freq 112000000 0,
                  MainEvent.segment 112000000 (sweep_segment env_steady_sweep cfg_uneven 2 4 3 false),
                  MainEvent.system_killall 2,
                  MainEvent.set_rx_freq 116000000 0,
                  MainEvent.segment 116000000 (sweep_segment env_steady_sweep cfg_uneven 2 4 4 false),
                  MainEvent.system_killall 2,
                  MainEvent.set_rx_freq 120000000 0] } }) ∧
    (∀ lfuel n : Nat,
      (UHD_SAFE_MAIN env_steady_sweep cfg_continuous lfuel n 100000000 false).exit =
          MainExit.running ∧
        (UHD_SAFE_MAIN env_steady_sweep cfg_continuous lfuel n 100000000
          false).state.segments = 1) := by
  refine ⟨⟨?_, by decide!⟩, ?_⟩
  · have : ⌈((110000000 : ℚ) - 100000000) / 4000000⌉₊ = 3 := by
      rw [Nat.ceil_eq_iff] <;> norm_num
    omega
  · intro lfuel n
    have hrun : (sweep_segment env_steady_sweep cfg_continuous lfuel 4 0 false).exit =
        LoopExit.running :=
      recv_loop_continuous_runs env_steady 1 4 500 (fun _ => rfl) (fun _ => rfl) lfuel
        (recv_prologue 1 0 false) rfl
    have htype : sizeof_samp_type cfg_continuous.type = some 4 := by decide
    simp only [UHD_SAFE_MAIN, sweep_body, htype, after_recv, sweep_init, hrun]
    rw [sweep_from_running]
    exact ⟨rfl, rfl⟩

/-- Rounding of the machine addition, first example: from 2^53 in steps of 1
towards 2^53 + 2, the sum 2^53 + 1 rounds back to 2^53, so `rx_freq` stays at
2^53 and the loop is still running after 4 segments. -/
theorem sweep_stalls_at_two_pow_53 :
    double_add 9007199254740992 1 = 9007199254740992 ∧
    (UHD_SAFE_MAIN env_steady_sweep cfg_large 2 3 9007199254740992 false).exit =
      MainExit.running ∧
    (UHD_SAFE_MAIN env_steady_sweep cfg_large 2 3 9007199254740992 false).state.rx_freq =
      9007199254740992 ∧
    (UHD_SAFE_MAIN env_steady_sweep cfg_large 2 3 9007199254740992 false).state.segments = 4 := by
  decide!

/-- Rounding of the machine addition, second example: from 0.1 in steps of
0.1 towards 0.3 (each read as a double), the second sum is not the double 0.3,
and the loop is still running after 4 segments. -/
theorem sweep_misses_three_tenths :
    double_add (double_add (binary64_round (1 / 10)) (binary64_round (1 / 10)))
        (binary64_round (1 / 10)) ≠ binary64_round (3 / 10) ∧
    (UHD_SAFE_MAIN env_steady_sweep cfg_tenths 2 3 (binary64_round (1 / 10)) false).exit =
      MainExit.running ∧
    (UHD_SAFE_MAIN env_steady_sweep cfg_tenths 2 3 (binary64_round (1 / 10))
      false).state.segments = 4 := by
  decide!

/-- C9 (amended): when the stop flag is found raised at an evaluation of the
loop condition of a segment (with `num_total_samps = s`) and `rx_freq` differs
from `end_freq`, no further call of `recv` is issued, `num_total_samps` and
the sinks stay as they are (`s` samples per channel), the stream is stopped and
the sinks are closed, the peer is signalled, `rx_freq` is advanced by
`freq_step` (the machine's `double` sum) and every channel is retuned to it once, and then the sweep loop
ends and `main` returns without another segment. -/
theorem C9_external_stop (env : Env) (cfg : Config) (lfuel n : Nat) (senv : SegEnv)
    (N sz spb : Nat) (req : Int) (st : MainState) (ls : LoopState)
    (hraised : (ls.stop_signal_called || senv.sigint ls.calls) = true)
    (hfreq : st.rx_freq ≠ cfg.end_freq) :
    recv_to_file_from senv N sz spb req lfuel ls =
      { exit := LoopExit.cond_false
        state :=
          { num_total_samps := ls.num_total_samps
            overflow_message := ls.overflow_message
            outfiles := ls.outfiles
            stop_signal_called := true
            calls := ls.calls
            trace := ls.trace ++
              [SegEvent.issue_stream_cmd StreamMode.STOP_CONTINUOUS req] ++
              (List.range N).map SegEvent.close } } ∧
    sweep_from env cfg lfuel n
        (after_recv env cfg st (recv_to_file_from senv N sz spb req lfuel ls)) =
      { exit := MainExit.returned
        state :=
          { rx_freq := env.fadd st.rx_freq cfg.freq_step
            stop_signal_called := true
            segments := st.segments + 1
            trace := st.trace ++
              [MainEvent.segment st.rx_freq (recv_to_file_from senv N sz spb req lfuel ls),
                MainEvent.system_killall 2] ++
              retune (env.fadd st.rx_freq cfg.freq_step) cfg.rx_num_channels } } := by
  have hc : loop_cond req (poll_stop senv ls) = false := by
    simp [loop_cond, poll_stop, hraised]
  have h1 : recv_to_file_from senv N sz spb req lfuel ls =
      { exit := LoopExit.cond_false
        state :=
          { num_total_samps := ls.num_total_samps
            overflow_message := ls.overflow_message
            outfiles := ls.outfiles
            stop_signal_called := true
            calls := ls.calls
            trace := ls.trace ++
              [SegEvent.issue_stream_cmd StreamMode.STOP_CONTINUOUS req] ++
              (List.range N).map SegEvent.close } } := by
    simp only [recv_to_file_from, recv_loop_cond_false senv N sz spb req lfuel ls hc,
      recv_epilogue, exit_events, poll_stop, hraised, List.append_assoc]
  refine ⟨h1, ?_⟩
  rw [after_recv_returned env cfg st _ (Or.inl (by rw [h1]))]
  simp only [hfreq, if_false]
  rw [sweep_from_next_stop _ _ _ _ _ (by rw [h1]; rfl)]

/-- C9 at the scenario of the specification: the flag is raised with 500 of
1000 samples written. -/
theorem C9_witness :
    recv_to_file_from env_sigint_second 1 4 500 1000 2 ls_half_way =
      { exit := LoopExit.cond_false
        state :=
          { num_total_samps := 500
            overflow_message := true
            outfiles := [2000]
            stop_signal_called := true
            calls := 1
            trace := ls_half_way.trace ++
              [SegEvent.issue_stream_cmd StreamMode.STOP_CONTINUOUS 1000, SegEvent.close 0] } } ∧
    sweep_from env_interrupted_sweep cfg_sweep 2 2
        (after_recv env_interrupted_sweep cfg_sweep (sweep_init 100000000 false)
          (recv_to_file_from env_sigint_second 1 4 500 1000 2 ls_half_way)) =
      { exit := MainExit.returned
        state :=
          { rx_freq := 105000000
            stop_signal_called := true
            segments := 1
            trace :=
              [MainEvent.segment 100000000
                  (recv_to_file_from env_sigint_second 1 4 500 1000 2 ls_half_way),
                MainEvent.system_killall 2,
                MainEvent.set_rx_freq 105000000 0] } } := by
  have h := C9_external_stop env_interrupted_sweep cfg_sweep 2 2 env_sigint_second 1 4 500 1000
    (sweep_init 100000000 false) ls_half_way (by decide) (by decide!)
  refine ⟨?_, ?_⟩
  · rw [h.1]; decide
  · rw [h.2]; decide!

/-- C9 as stated fails: SIGINT arrives after 500 of 1000 samples of the first
segment at 100 MHz; the segment ends with 500 samples and the peer is
signalled, and then the channel is retuned to 105 MHz before `main` returns. -/
theorem C9_counterexample :
    UHD_SAFE_MAIN env_interrupted_sweep cfg_sweep 2 2 100000000 false =
      { exit := MainExit.returned
        state :=
          { rx_freq := 105000000
            stop_signal_called := true
            segments := 1
            trace :=
              [MainEvent.segment 100000000
                  (sweep_segment env_interrupted_sweep cfg_sweep 2 4 0 false),
                MainEvent.system_killall 2,
                MainEvent.set_rx_freq 105000000 0] } } ∧
    (sweep_segment env_interrupted_sweep cfg_sweep 2 4 0 false).state.num_total_samps = 500 ∧
    (sweep_segment env_interrupted_sweep cfg_sweep 2 4 0 false).state.stop_signal_called = true ∧
    MainEvent.set_rx_freq 105000000 0 ∈
      (UHD_SAFE_MAIN env_interrupted_sweep cfg_sweep 2 2 100000000 false).state.trace := by
  decide!

end RxMultiToFileSwitch
